import Mathlib

/-!
Verification development for the jizt backend dispatcher core: content-key
derivation (`unique_key.py`), the dispatcher's PostgreSQL summary DAO
(`summary_dao_postgresql.py`), the dispatcher Kafka consumer loop
(`kafka_consumer.py`), T5 parameter validation (`param_validation.py`) and
the plain-text request schema (`schemas.py`), shallowly embedded as
executable Lean definitions, together with theorems about the claims of
the specification.
-/

namespace Jizt

/-! ### SHA-256

Executable embedding of `hashlib.sha256(text.encode()).hexdigest()` as used by
`get_unique_key` (services/summarization/dispatcher/kafka/unique_key.py) and by
`SummaryDAOPostgresql._get_unique_key`
(services/dispatcher/data/summary_dao_postgresql.py). Bytes and 32-bit words
are `Nat` with explicit reduction modulo 2^32. -/

namespace Sha256

/-- 32-bit right rotation. -/
def rotr (x n : Nat) : Nat :=
  ((x >>> n) ||| (x <<< (32 - n))) % 4294967296

/-- The 64 SHA-256 round constants. -/
def roundConsts : List Nat :=
  [1116352408, 1899447441, 3049323471, 3921009573,
   961987163, 1508970993, 2453635748, 2870763221,
   3624381080, 310598401, 607225278, 1426881987,
   1925078388, 2162078206, 2614888103, 3248222580,
   3835390401, 4022224774, 264347078, 604807628,
   770255983, 1249150122, 1555081692, 1996064986,
   2554220882, 2821834349, 2952996808, 3210313671,
   3336571891, 3584528711, 113926993, 338241895,
   666307205, 773529912, 1294757372, 1396182291,
   1695183700, 1986661051, 2177026350, 2456956037,
   2730485921, 2820302411, 3259730800, 3345764771,
   3516065817, 3600352804, 4094571909, 275423344,
   430227734, 506948616, 659060556, 883997877,
   958139571, 1322822218, 1537002063, 1747873779,
   1955562222, 2024104815, 2227730452, 2361852424,
   2428436474, 2756734187, 3204031479, 3329325298]

/-- UTF-8 encoding of a single character (Python `str.encode()` is UTF-8). -/
def utf8Char (c : Char) : List Nat :=
  let n := c.toNat
  if n < 0x80 then [n]
  else if n < 0x800 then
    [0xC0 ||| (n >>> 6), 0x80 ||| (n &&& 0x3F)]
  else if n < 0x10000 then
    [0xE0 ||| (n >>> 12), 0x80 ||| ((n >>> 6) &&& 0x3F), 0x80 ||| (n &&& 0x3F)]
  else
    [0xF0 ||| (n >>> 18), 0x80 ||| ((n >>> 12) &&& 0x3F),
     0x80 ||| ((n >>> 6) &&& 0x3F), 0x80 ||| (n &&& 0x3F)]

/-- UTF-8 encoding of a string, as a list of byte values. -/
def utf8 (s : String) : List Nat :=
  (s.data.map utf8Char).flatten

/-- Big-endian base-256 digits of `n`, `k` bytes wide. -/
def beBytes : Nat → Nat → List Nat
  | 0, _ => []
  | k + 1, n => beBytes k (n / 256) ++ [n % 256]

/-- SHA-256 message padding: append `0x80`, zeros, and the 64-bit big-endian
bit length, so the total length is a multiple of 64 bytes. -/
def pad (msg : List Nat) : List Nat :=
  let len := msg.length
  let zeros := (64 - (len + 9) % 64) % 64
  msg ++ 0x80 :: List.replicate zeros 0 ++ beBytes 8 (8 * len)

/-- Combine bytes into big-endian 32-bit words. -/
def toWords : List Nat → List Nat
  | b0 :: b1 :: b2 :: b3 :: rest =>
      (((b0 * 256 + b1) * 256 + b2) * 256 + b3) :: toWords rest
  | _ => []

/-- Lower sigma-0 message-schedule function. -/
def smallSig0 (x : Nat) : Nat := (rotr x 7) ^^^ (rotr x 18) ^^^ (x >>> 3)

/-- Lower sigma-1 message-schedule function. -/
def smallSig1 (x : Nat) : Nat := (rotr x 17) ^^^ (rotr x 19) ^^^ (x >>> 10)

/-- Extend the 16 block words to the 64-entry message schedule:
`count` remaining entries are appended starting at index `i`. -/
def sched (w : Array Nat) (i count : Nat) : Array Nat :=
  match count with
  | 0 => w
  | c + 1 =>
    let nw := (smallSig1 (w.getD (i - 2) 0) + w.getD (i - 7) 0 +
               smallSig0 (w.getD (i - 15) 0) + w.getD (i - 16) 0) % 4294967296
    sched (w.push nw) (i + 1) c

/-- The eight 32-bit working variables of the compression function. -/
structure Hs where
  a : Nat
  b : Nat
  c : Nat
  d : Nat
  e : Nat
  f : Nat
  g : Nat
  h : Nat
deriving Repr, DecidableEq

/-- Initial hash value. -/
def h0 : Hs :=
  ⟨0x6a09e667, 0xbb67ae85, 0x3c6ef372, 0xa54ff53a,
   0x510e527f, 0x9b05688c, 0x1f83d9ab, 0x5be0cd19⟩

/-- One round of the SHA-256 compression function. -/
def round (k w : Nat) (s : Hs) : Hs :=
  let bigS1 := (rotr s.e 6) ^^^ (rotr s.e 11) ^^^ (rotr s.e 25)
  let ch := (s.e &&& s.f) ^^^ ((s.e ^^^ 0xFFFFFFFF) &&& s.g)
  let t1 := (s.h + bigS1 + ch + k + w) % 4294967296
  let bigS0 := (rotr s.a 2) ^^^ (rotr s.a 13) ^^^ (rotr s.a 22)
  let maj := (s.a &&& s.b) ^^^ (s.a &&& s.c) ^^^ (s.b &&& s.c)
  let t2 := (bigS0 + maj) % 4294967296
  ⟨(t1 + t2) % 4294967296, s.a, s.b, s.c, (s.d + t1) % 4294967296, s.e, s.f, s.g⟩

/-- Run the 64 rounds over the round constants and the message schedule. -/
def rounds : List Nat → List Nat → Hs → Hs
  | k :: ks, w :: ws, s => rounds ks ws (round k w s)
  | _, _, s => s

/-- Compress one 64-byte block into the running hash state. -/
def compressBlock (block : List Nat) (s : Hs) : Hs :=
  let w := sched (toWords block).toArray 16 48
  let t := rounds roundConsts w.toList s
  ⟨(s.a + t.a) % 4294967296, (s.b + t.b) % 4294967296,
   (s.c + t.c) % 4294967296, (s.d + t.d) % 4294967296,
   (s.e + t.e) % 4294967296, (s.f + t.f) % 4294967296,
   (s.g + t.g) % 4294967296, (s.h + t.h) % 4294967296⟩

/-- Process a padded byte list block by block. The first argument is
structural fuel (any bound on the number of blocks); `process` supplies
`bytes.length`, which always suffices since every step consumes 64 bytes. -/
def processFuel : Nat → List Nat → Hs → Hs
  | 0, _, s => s
  | _ + 1, [], s => s
  | n + 1, b :: rest, s =>
      processFuel n ((b :: rest).drop 64) (compressBlock ((b :: rest).take 64) s)

/-- Process a padded byte list block by block. -/
def process (bytes : List Nat) (s : Hs) : Hs :=
  processFuel bytes.length bytes s

/-- One lowercase hexadecimal digit. -/
def hexDigit (n : Nat) : Char :=
  if n < 10 then Char.ofNat (48 + n) else Char.ofNat (87 + n)

/-- Eight-hex-digit rendering of a 32-bit word. -/
def wordHex (w : Nat) : List Char :=
  [hexDigit ((w >>> 28) &&& 15), hexDigit ((w >>> 24) &&& 15),
   hexDigit ((w >>> 20) &&& 15), hexDigit ((w >>> 16) &&& 15),
   hexDigit ((w >>> 12) &&& 15), hexDigit ((w >>> 8) &&& 15),
   hexDigit ((w >>> 4) &&& 15), hexDigit (w &&& 15)]

/-- `hashlib.sha256(s.encode()).hexdigest()`. -/
def sha256hex (s : String) : String :=
  let t := process (pad (utf8 s)) h0
  ⟨wordHex t.a ++ wordHex t.b ++ wordHex t.c ++ wordHex t.d ++
   wordHex t.e ++ wordHex t.f ++ wordHex t.g ++ wordHex t.h⟩

end Sha256

/-! ### Python values and `str(params)`

`get_unique_key` hashes `"".join([source, model, str(params)])`, so the embedding
needs Python's `str` rendering of a parameter dictionary. A `dict` is modelled as
an association list in insertion order (Python dictionaries preserve insertion
order and have no duplicate keys). -/

/-- Python value fragment occurring in the system's parameter dictionaries. -/
inductive PyVal where
  | pNone
  | pBool (b : Bool)
  | pInt (n : Int)
  | pFloat (q : ℚ)
  | pStr (s : String)
deriving Repr, DecidableEq

/-- Decimal digits of a natural number (first argument is structural fuel). -/
def natDigits : Nat → Nat → List Char
  | 0, _ => []
  | _ + 1, 0 => []
  | f + 1, n => natDigits f (n / 10) ++ [Char.ofNat (48 + n % 10)]

/-- Decimal rendering of a natural number. -/
def natDec (n : Nat) : String :=
  if n = 0 then "0" else ⟨natDigits (n + 1) n⟩

/-- Decimal rendering of an integer (Python `str` of an `int`). -/
def intDec (i : Int) : String :=
  (if i < 0 then "-" else "") ++ natDec i.natAbs

/-- Decimal digits of the fractional part of a nonnegative rational
(first argument is structural fuel). -/
def fracDigitChars : Nat → ℚ → List Char
  | 0, _ => []
  | f + 1, q =>
    if q = 0 then []
    else
      let q10 := q * 10
      let d := (q10.num / (q10.den : Int)).toNat
      Char.ofNat (48 + d) :: fracDigitChars f (q10 - (d : ℚ))

/-- Python `repr` of a float, for floats whose value is a decimally
representable rational (the only float literals the system handles);
e.g. `0.4` renders as `"0.4"` and `1.0` as `"1.0"`. -/
def floatRepr (q : ℚ) : String :=
  let a := if q < 0 then -q else q
  let ip := (a.num / (a.den : Int)).toNat
  let fr := a - (ip : ℚ)
  let ds := fracDigitChars 32 fr
  (if q < 0 then "-" else "") ++ natDec ip ++ "." ++
    (if ds.isEmpty then "0" else ⟨ds⟩)

/-- Python `repr` of a value, as it appears inside `str(params)`. Faithful for
the value shapes the system passes around: `None`, booleans, integers,
decimally-representable floats, and strings without quote or escape
characters. -/
def pyRepr : PyVal → String
  | .pNone => "None"
  | .pBool b => if b then "True" else "False"
  | .pInt n => intDec n
  | .pFloat q => floatRepr q
  | .pStr s => "\x27" ++ s ++ "\x27"

/-- A Python parameter dictionary: association list in insertion order. -/
abbrev Params := List (String × PyVal)

/-- Python `str` of a string-keyed dictionary: entries in insertion order. -/
def pyStrDict (ps : Params) : String :=
  "\x7b" ++
    String.intercalate ", " (ps.map fun kv => "\x27" ++ kv.1 ++ "\x27: " ++ pyRepr kv.2) ++
  "\x7d"

/-- `get_unique_key` (services/summarization/dispatcher/kafka/unique_key.py):
SHA-256 hex digest of the string formed by concatenating `source`, `model`
and `str(params)`. -/
def get_unique_key (source model : String) (params : Params) : String :=
  Sha256.sha256hex (source ++ model ++ pyStrDict params)

/-- `SummaryDAOPostgresql._get_unique_key`
(services/dispatcher/data/summary_dao_postgresql.py): SHA-256 hex digest of a
text, used as the id of a `jizt.source` row. -/
def dao_get_unique_key (text : String) : String :=
  Sha256.sha256hex text

/-! ### Warnings maps and `ConsumerLoop._update_warnings` -/

/-- A warnings map: parameter name to ordered list of warning strings.
Association list in insertion order, mirroring a Python dict. -/
abbrev WMap := List (String × List String)

/-- `ConsumerLoop._update_warnings` (services/dispatcher/kafka/kafka_consumer.py):
if the new warnings are `None` or empty the old map is returned unchanged;
otherwise keys only in the new map are appended after the old keys, and for
keys present in both maps the new warning list is concatenated after the old
one. `none` models passing Python `None`. -/
def update_warnings (old : WMap) (new : Option WMap) : WMap :=
  match new with
  | none => old
  | some nw =>
    if nw.isEmpty then old
    else
      (old.map fun kv =>
        match nw.lookup kv.1 with
        | some v => (kv.1, kv.2 ++ v)
        | none => kv) ++
      nw.filter fun kv => (old.lookup kv.1).isNone

/-! ### The dispatcher store

Relational state behind `SummaryDAOPostgresql`
(services/dispatcher/data/summary_dao_postgresql.py). Three tables:
`jizt.source` (content keyed by its SHA-256), `jizt.summary` (summaries keyed
by identifier, referencing a source with `ON DELETE CASCADE` / `ON UPDATE
CASCADE`), and `jizt.id_raw_id_preprocessed` (raw identifier to preprocessed
identifier bindings, referencing a summary with cascades). Timestamps are
`Nat`; each operation that executes `datetime.now()` takes the current time as
an explicit `now` argument. The `request_count` and `warnings` columns of
`jizt.summary` (used by `increment_summary_count` and by the consumer's
`update_summary` calls) are carried on the summary row. -/

/-- The summary lifecycle states. Modelled from the spec: the `SummaryStatus`
enum (`summary_status.py`) is not among the sources; the states are those of
spec section 3 as used by the consumer loop. -/
inductive SummaryStatus where
  | preprocessing
  | encoding
  | summarizing
  | postprocessing
  | completed
  | failed
deriving Repr, DecidableEq

/-- A row of `jizt.source`. -/
structure SourceRow where
  sourceId : String
  content : String
  contentLength : Nat
deriving Repr, DecidableEq

/-- A row of `jizt.summary`. -/
structure SummaryRow where
  summaryId : String
  sourceId : String
  output : Option String
  outputLength : Option Nat
  modelName : String
  params : Params
  status : SummaryStatus
  startedAt : Nat
  endedAt : Option Nat
  languageTag : String
  requestCount : Nat
  warnings : WMap
deriving Repr, DecidableEq

/-- A row of `jizt.id_raw_id_preprocessed`. -/
structure BindingRow where
  idRaw : String
  idPre : String
  cache : Bool
  lastAccessed : Nat
deriving Repr, DecidableEq

/-- The store state. -/
structure DB where
  sources : List SourceRow
  summaries : List SummaryRow
  bindings : List BindingRow
deriving Repr, DecidableEq

/-- Key uniqueness of the three tables (their primary keys). -/
def DB.WF (db : DB) : Prop :=
  (db.sources.map SourceRow.sourceId).Nodup ∧
  (db.summaries.map SummaryRow.summaryId).Nodup ∧
  (db.bindings.map BindingRow.idRaw).Nodup

instance (db : DB) : Decidable db.WF := by
  unfold DB.WF; infer_instance

/-- Row of `jizt.id_raw_id_preprocessed` with the given `id_raw`, if any. -/
def findBinding (db : DB) (r : String) : Option BindingRow :=
  db.bindings.find? fun b => b.idRaw == r

/-- Row of `jizt.summary` with the given `summary_id`, if any. -/
def findSummary (db : DB) (sid : String) : Option SummaryRow :=
  db.summaries.find? fun s => s.summaryId == sid

/-- Row of `jizt.source` with the given `source_id`, if any. -/
def findSource (db : DB) (sid : String) : Option SourceRow :=
  db.sources.find? fun s => s.sourceId == sid

/-- Row effect of `SET last_accessed = now WHERE id_raw = r`. -/
def touchRow (r : String) (now : Nat) (b : BindingRow) : BindingRow :=
  if b.idRaw == r then { b with lastAccessed := now } else b

/-- `UPDATE jizt.id_raw_id_preprocessed SET last_accessed = now WHERE id_raw = r`
(executed by `get_summary` and `summary_exists` before their SELECT). -/
def touchBinding (db : DB) (r : String) (now : Nat) : DB :=
  { db with bindings := db.bindings.map (touchRow r now) }

/-- `SummaryDAOPostgresql.get_summary`: update `last_accessed` on the binding,
then select the summary and source joined through the binding for `id_`.
Returns the new store plus the summary row and its source row (the Python
function materialises them into a `Summary` object), or `none` if the join is
empty. -/
def get_summary (db : DB) (id_ : String) (now : Nat) :
    DB × Option (SummaryRow × SourceRow) :=
  let db1 := touchBinding db id_ now
  match findBinding db1 id_ with
  | none => (db1, none)
  | some b =>
    match findSummary db1 b.idPre with
    | none => (db1, none)
    | some srow =>
      match findSource db1 srow.sourceId with
      | none => (db1, none)
      | some src => (db1, some (srow, src))

/-- Cascade of `DELETE FROM jizt.source WHERE source_id = srcId`: the source
row is removed, summaries referencing it are removed (`ON DELETE CASCADE`),
and bindings whose `id_preprocessed` referenced a removed summary are removed
in turn. -/
def deleteSourceCascade (db : DB) (srcId : String) : DB :=
  let deadSummaryIds :=
    (db.summaries.filter fun s => s.sourceId == srcId).map SummaryRow.summaryId
  { sources := db.sources.filter fun s => !(s.sourceId == srcId)
    summaries := db.summaries.filter fun s => !(s.sourceId == srcId)
    bindings := db.bindings.filter fun b => !(deadSummaryIds.contains b.idPre) }

/-- `DELETE FROM jizt.source WHERE source_id = (SELECT source_id FROM
jizt.summary WHERE summary_id = sid)` — the statement used by
`update_preprocessed_id` and `delete_if_not_cache` to delete a summary
together with its source. A no-op when no summary row has id `sid`. -/
def deleteSourceOfSummary (db : DB) (sid : String) : DB :=
  match findSummary db sid with
  | none => db
  | some s => deleteSourceCascade db s.sourceId

/-- `SummaryDAOPostgresql.update_cache_true`: set `cache = TRUE` and refresh
`last_accessed` on every binding that currently has `cache = FALSE` and whose
`id_raw` either equals `id_` or equals the `id_preprocessed` of a binding
whose `id_raw` is `id_`. -/
def cacheTrueRow (id_ : String) (pres : List String) (now : Nat)
    (b : BindingRow) : BindingRow :=
  if !b.cache && (b.idRaw == id_ || pres.contains b.idRaw) then
    { b with cache := true, lastAccessed := now }
  else b

/-- The `id_preprocessed` values bound to `id_` (the subquery of
`update_cache_true`). -/
def presOf (db : DB) (id_ : String) : List String :=
  (db.bindings.filter fun b => b.idRaw == id_).map BindingRow.idPre

def update_cache_true (db : DB) (id_ : String) (now : Nat) : DB :=
  { db with bindings := db.bindings.map (cacheTrueRow id_ (presOf db id_) now) }

/-- `SummaryDAOPostgresql.update_preprocessed_id`: repoint the binding for
`raw_id` to `new_preprocessed_id` (refreshing `last_accessed`), and — when
that binding existed — propagate its cache flag onto the binding whose
`id_raw` is `new_preprocessed_id` if that one has `cache = FALSE`, then delete
the old summary (the one whose id is `raw_id`) together with its source. -/
def repointRow (rawId newPre : String) (now : Nat) (x : BindingRow) : BindingRow :=
  if x.idRaw == rawId then { x with idPre := newPre, lastAccessed := now } else x

def orCacheRow (newPre : String) (c : Bool) (now : Nat) (x : BindingRow) :
    BindingRow :=
  if x.idRaw == newPre && !x.cache then
    { x with cache := c, lastAccessed := now }
  else x

def update_preprocessed_id (db : DB) (rawId newPre : String) (now : Nat) : DB :=
  match findBinding db rawId with
  | none => db
  | some b =>
    let db2 : DB := { db with bindings :=
      ((db.bindings.map (repointRow rawId newPre now)).map
        (orCacheRow newPre b.cache now)) }
    deleteSourceOfSummary db2 rawId

/-- `SummaryDAOPostgresql.delete_if_not_cache`: delete the binding for `id_`
only if its cache flag is false; if one was deleted, delete the summary and
source when the deleted binding was a self-binding, and otherwise when the
binding whose `id_raw` equals the deleted binding's `id_preprocessed` exists
and has `cache = FALSE`. -/
def dropBinding (db : DB) (id_ : String) : DB :=
  { db with bindings := db.bindings.filter fun x => !(x.idRaw == id_) }

def delete_if_not_cache (db : DB) (id_ : String) : DB :=
  match findBinding db id_ with
  | none => db
  | some b =>
    if b.cache then db
    else
      let db1 := dropBinding db id_
      if id_ == b.idPre then
        deleteSourceOfSummary db1 b.idPre
      else
        match findBinding db1 b.idPre with
        | some sb => if !sb.cache then deleteSourceOfSummary db1 b.idPre else db1
        | none => db1

/-- `SummaryDAOPostgresql.increment_summary_count`: increment `request_count`
of the summary reached through the binding for `id_`, returning the new count;
when the join is empty, the `UPDATE` touches no row and `cur.fetchone()[0]`
raises, which the enclosing `except` swallows, so the call returns `None`. -/
def incrRow (pre : String) (x : SummaryRow) : SummaryRow :=
  if x.summaryId == pre then { x with requestCount := x.requestCount + 1 } else x

def increment_summary_count (db : DB) (id_ : String) : DB × Option Nat :=
  match findBinding db id_ with
  | none => (db, none)
  | some b =>
    match findSummary db b.idPre with
    | none => (db, none)
    | some s =>
      ({ db with summaries := db.summaries.map (incrRow b.idPre) },
       some (s.requestCount + 1))

/-! ### Transactions that can raise

A DAO method executes its statements inside one connection; when a statement
raises (uniqueness violation, client-side parameter interpolation error), the
enclosing `except` logs the error, `conn.commit()` is never reached, and
closing the connection rolls the transaction back, so the observable store is
unchanged. `PyResult` is the raising layer; each method folds it back into a
total function. -/

/-- An exception raised by a statement (psycopg2 error or any other). -/
inductive PyErr where
  | pyErr
deriving Repr, DecidableEq

/-- Result of running code that may raise. -/
abbrev PyResult (α : Type) := Except PyErr α

/-- `SQL_UPDATE_SOURCE` of `update_source`: `UPDATE jizt.source SET source_id,
content, content_length WHERE source_id = oldSrcId`, with `ON UPDATE CASCADE`
into `jizt.summary.source_id`. Raises (uniqueness violation) when the row
exists and the new key collides with a different existing row. -/
def renameSourceRow (oldSrcId newSrcId newSource : String) (s : SourceRow) :
    SourceRow :=
  if s.sourceId == oldSrcId then ⟨newSrcId, newSource, newSource.length⟩ else s

def cascadeSummarySourceRow (oldSrcId newSrcId : String) (s : SummaryRow) :
    SummaryRow :=
  if s.sourceId == oldSrcId then { s with sourceId := newSrcId } else s

def sqlUpdateSource (db : DB) (oldSrcId newSrcId newSource : String) :
    PyResult DB :=
  match findSource db oldSrcId with
  | none => .ok db
  | some _ =>
    if newSrcId ≠ oldSrcId ∧ (findSource db newSrcId).isSome then .error .pyErr
    else .ok { db with
      sources := db.sources.map (renameSourceRow oldSrcId newSrcId newSource)
      summaries := db.summaries.map (cascadeSummarySourceRow oldSrcId newSrcId) }

/-- `SQL_UPDATE_SUMMARY_ID` of `update_source`: `UPDATE jizt.summary SET
summary_id = newSid WHERE summary_id = oldSid`, with `ON UPDATE CASCADE` into
`jizt.id_raw_id_preprocessed.id_preprocessed`. Raises when the row exists and
the new key collides with a different existing row. -/
def renameSummaryRow (oldSid newSid : String) (s : SummaryRow) : SummaryRow :=
  if s.summaryId == oldSid then { s with summaryId := newSid } else s

def cascadeBindingPreRow (oldSid newSid : String) (b : BindingRow) : BindingRow :=
  if b.idPre == oldSid then { b with idPre := newSid } else b

def sqlUpdateSummaryId (db : DB) (oldSid newSid : String) : PyResult DB :=
  match findSummary db oldSid with
  | none => .ok db
  | some _ =>
    if newSid ≠ oldSid ∧ (findSummary db newSid).isSome then .error .pyErr
    else .ok { db with
      summaries := db.summaries.map (renameSummaryRow oldSid newSid)
      bindings := db.bindings.map (cascadeBindingPreRow oldSid newSid) }

/-- `SQL_INSERT_PREPROCESSED_ID` of `update_source`: insert the self-binding
`(newSid, newSid, cache, now)`, copying the cache flag from the binding whose
`id_raw` is `oldSid`; inserts nothing when that binding is absent, raises
(primary-key violation) when a binding with `id_raw = newSid` already
exists. -/
def sqlInsertPreprocessedId (db : DB) (newSid : String) (now : Nat)
    (oldSid : String) : PyResult DB :=
  match findBinding db oldSid with
  | none => .ok db
  | some b =>
    if (findBinding db newSid).isSome then .error .pyErr
    else .ok { db with bindings := db.bindings ++ [⟨newSid, newSid, b.cache, now⟩] }

/-- The transaction of `SummaryDAOPostgresql.update_source`: rename the source
row (cascading into summaries), rename the summary row (cascading into
bindings), then insert the self-binding for the new summary id. -/
def updateSourceTx (db : DB) (oldSource newSource oldSid newSid : String)
    (now : Nat) : PyResult DB := do
  let db1 ← sqlUpdateSource db (dao_get_unique_key oldSource)
    (dao_get_unique_key newSource) newSource
  let db2 ← sqlUpdateSummaryId db1 oldSid newSid
  sqlInsertPreprocessedId db2 newSid now oldSid

/-- `SummaryDAOPostgresql.update_source`: on any statement error the enclosing
`except` swallows the exception and the uncommitted transaction is rolled
back, so the store is returned unchanged. -/
def update_source (db : DB) (oldSource newSource oldSid newSid : String)
    (now : Nat) : DB :=
  match updateSourceTx db oldSource newSource oldSid newSid now with
  | .ok db' => db'
  | .error _ => db

/-- `SummaryDAOPostgresql.summary_exists`: refresh `last_accessed`, then check
whether a binding row with `id_raw = id_` exists. -/
def summary_exists (db : DB) (id_ : String) (now : Nat) : DB × Bool :=
  let db1 := touchBinding db id_ now
  (db1, (findBinding db1 id_).isSome)

/-- Column assignments passed to `update_summary` by the consumer loop
(keyword arguments matching DB columns; absent fields are not updated). -/
structure UpdateCols where
  status : Option SummaryStatus := none
  warnings : Option WMap := none
  endedAt : Option Nat := none
  output : Option String := none
  params : Option Params := none
deriving Repr, DecidableEq

/-- Apply the provided column assignments to a summary row. -/
def applyCols (c : UpdateCols) (s : SummaryRow) : SummaryRow :=
  { s with
    status := c.status.getD s.status
    warnings := c.warnings.getD s.warnings
    endedAt := match c.endedAt with | some t => some t | none => s.endedAt
    output := match c.output with | some o => some o | none => s.output
    params := c.params.getD s.params }

/-- Row effect of the generic `UPDATE jizt.summary SET ...` of
`update_summary` on the summary row joined through the binding. -/
def updColsRow (pre : String) (cols : UpdateCols) (s : SummaryRow) : SummaryRow :=
  if s.summaryId == pre then applyCols cols s else s

/-- `SummaryDAOPostgresql.update_summary`: if `summary_exists(id_)` (which
refreshes `last_accessed`), update the summary row reached through the
binding join with the provided columns; when the join matches no row
(`cur.rowcount == 0`) return `None`; otherwise return `get_summary(id_)`. -/
def update_summary (db : DB) (id_ : String) (cols : UpdateCols) (now : Nat) :
    DB × Option (SummaryRow × SourceRow) :=
  let (db1, ex) := summary_exists db id_ now
  if ex then
    match findBinding db1 id_ with
    | none => (db1, none)
    | some b =>
      match findSummary db1 b.idPre with
      | none => (db1, none)
      | some _ =>
        let db2 : DB :=
          { db1 with summaries := db1.summaries.map (updColsRow b.idPre cols) }
        get_summary db2 id_ now
  else (db1, none)

/-- `SQL_DELETE_ID_RAW` of `cleanup_cache`: delete every binding whose joined
summary is completed, whose `cache` is false, and whose `last_accessed` is
older than the threshold. -/
def cleanupDeleteBindings (db : DB) (olderThan now : Nat) : DB :=
  { db with bindings := db.bindings.filter fun b =>
      !(match findSummary db b.idPre with
        | some s =>
            !b.cache && s.status == SummaryStatus.completed &&
              b.lastAccessed + olderThan < now
        | none => false) }

/-- The transaction of `SummaryDAOPostgresql.cleanup_cache`. After the first
DELETE, `cur.execute(SQL_DELETE_SUMMARY, (older_than_seconds,))` is executed:
`SQL_DELETE_SUMMARY` contains no `%s` placeholder while a one-element
parameter tuple is supplied, so psycopg2's client-side parameter
interpolation raises `TypeError` ("not all arguments converted during string
formatting") before the statement runs and before `conn.commit()` is
reached. -/
def cleanupCacheTx (db : DB) (olderThan now : Nat) : PyResult DB :=
  let db1 := cleanupDeleteBindings db olderThan now
  let _ := db1
  .error .pyErr

/-- `SummaryDAOPostgresql.cleanup_cache`: the transaction always raises (see
`cleanupCacheTx`), the enclosing `except` logs and swallows the error, and
closing the connection rolls back the uncommitted first DELETE, leaving the
store unchanged. -/
def cleanup_cache (db : DB) (olderThan now : Nat) : DB :=
  match cleanupCacheTx db olderThan now with
  | .ok db' => db'
  | .error _ => db

/-! ### The dispatcher consumer loop

`ConsumerLoop.run` (services/dispatcher/kafka/kafka_consumer.py), one consumed
message at a time. A consumed message carries the raw key and the fields of
`ConsumedMsgSchema`; the loop either handles a preprocessing-completion event
(possibly producing to the text-encoding topic) or applies a status update.
`none` models an uncaught Python exception escaping the loop body. -/

/-- Kafka topic to which the dispatcher forwards preprocessed texts. Modelled
from the spec: the dispatcher's `kafka_topics.py` is not among the sources;
only the topic's identity matters to the claims. -/
def textEncodingTopic : String := "text-encoding-topic"

/-- A message produced by the consumer loop (key plus the fields of
`TextEncodingProducedMsgSchema`). -/
structure ProducedMsg where
  topic : String
  key : String
  textPreprocessed : String
  modelName : String
  params : Params
deriving Repr, DecidableEq

/-- The `summary_status == PREPROCESSING` branch of `ConsumerLoop.run`:
compute the preprocessed id; if a summary addressed by it exists and is
completed, repoint the raw binding (when the ids differ) and produce nothing;
otherwise migrate the in-flight summary via `update_source` and produce
exactly one message to the text-encoding topic; in both cases increment the
request count through the raw key. `none` models the `AttributeError` raised
by `get_summary(msg.key())[0].source` when no summary exists for the raw
key. -/
def handle_preprocessing (db : DB) (key textPre model : String) (params : Params)
    (now : Nat) : Option (DB × List ProducedMsg) :=
  let idPre := get_unique_key textPre model params
  let (db1, res) := get_summary db idPre now
  let isCompleted :=
    match res with
    | some (srow, _) => srow.status == SummaryStatus.completed
    | none => false
  if isCompleted then
    let db2 := if key == idPre then db1 else update_preprocessed_id db1 key idPre now
    let (db3, _) := increment_summary_count db2 key
    some (db3, [])
  else
    match get_summary db1 key now with
    | (_, none) => none
    | (db2, some (_, src)) =>
      let db3 := update_source db2 src.content textPre key idPre now
      let msg : ProducedMsg := ⟨textEncodingTopic, key, textPre, model, params⟩
      let (db4, _) := increment_summary_count db3 key
      some (db4, [msg])

/-- A non-preprocessing consumed event: the new status plus the optional
payload fields of `ConsumedMsgSchema` (`none` for an absent field). -/
structure StatusEvent where
  status : SummaryStatus
  output : Option String := none
  params : Option Params := none
  warnings : Option WMap := none
deriving Repr, DecidableEq

/-- The non-preprocessing branch of `ConsumerLoop.run`: merge the event's
warnings into the stored ones with `_update_warnings`, then update the
summary's status (plus `ended_at`, output and validated params when the event
is a completion). Produces no message. `none` models the uncaught exceptions
of this branch: `None.copy()` when no summary exists for the key while the
event carries warnings, and `KeyError` when a completion event lacks `output`
or `params`. -/
def handle_status_update (db : DB) (key : String) (ev : StatusEvent) (now : Nat) :
    Option (DB × List ProducedMsg) :=
  let (db1, res) := get_summary db key now
  let newW := ev.warnings.getD []
  let oldW : Option WMap := res.map fun p => p.1.warnings
  if oldW.isNone && !newW.isEmpty then none
  else
    let merged : Option WMap :=
      match oldW with
      | some w => some (update_warnings w (some newW))
      | none => none
    if ev.status == SummaryStatus.completed && (ev.output.isNone || ev.params.isNone)
    then none
    else
      let cols : UpdateCols :=
        if ev.status == SummaryStatus.completed then
          { status := some ev.status, warnings := merged,
            endedAt := some now, output := ev.output, params := ev.params }
        else { status := some ev.status, warnings := merged }
      let (db2, _) := update_summary db1 key cols now
      some (db2, [])

/-! ### Connection failure

`_connect` catches its own errors, logs them and returns `None`; each DAO
method then raises `AttributeError` on `None.cursor()` inside its `try`, the
catch-all `except (Exception, psycopg2.DatabaseError)` logs it, and the
method falls through to its implicit/explicit `None`-ish return with the
store untouched. -/

/-- The transaction of `SummaryDAOPostgresql.insert_summary`: insert the
source row when no row with the content\x27s hash exists yet, insert the
summary row, and insert the self-binding `(id_, id_, cache, now)`. The
summary INSERT lists ten columns; `request_count` and `warnings` come from
the table defaults — the DDL is not among the repository\x27s files, so the
defaults are modelled from the spec (the request count starts its monotone
climb at zero, and no warnings have been accumulated yet). A key violation
on the summary or binding insert raises, and the enclosing `except` then
rolls the whole transaction back. -/
def insertSummaryTx (db : DB) (id_ source : String) (output : Option String)
    (model : String) (params : Params) (status : SummaryStatus)
    (startedAt : Nat) (endedAt : Option Nat) (lang : String) (cache : Bool)
    (now : Nat) : PyResult DB :=
  let sid := dao_get_unique_key source
  let db1 : DB :=
    if (findSource db sid).isSome then db
    else { db with sources := db.sources ++ [⟨sid, source, source.length⟩] }
  if (findSummary db1 id_).isSome then .error .pyErr
  else
    let db2 : DB := { db1 with summaries := db1.summaries ++
      [⟨id_, sid, output, output.map String.length, model, params, status,
        startedAt, endedAt, lang, 0, []⟩] }
    if (findBinding db2 id_).isSome then .error .pyErr
    else .ok { db2 with bindings := db2.bindings ++ [⟨id_, id_, cache, now⟩] }

/-- `SummaryDAOPostgresql.insert_summary` as its caller observes it: on any
raise the store is unchanged. -/
def insert_summary (db : DB) (id_ source : String) (output : Option String)
    (model : String) (params : Params) (status : SummaryStatus)
    (startedAt : Nat) (endedAt : Option Nat) (lang : String) (cache : Bool)
    (now : Nat) : DB :=
  match insertSummaryTx db id_ source output model params status startedAt
      endedAt lang cache now with
  | .ok db2 => db2
  | .error _ => db

/-- `SummaryDAOPostgresql.delete_summary`: with `delete_source` it deletes
the summary\x27s source (`SQL_DELETE_ALSO_SOURCE`, cascading into the summary
and the bindings referencing it); otherwise only the summary row
(`SQL_DELETE_SUMMARY`), cascading into bindings whose `id_preprocessed`
referenced it, with the source left in place. -/
def delete_summary (db : DB) (id_ : String) (deleteSource : Bool) : DB :=
  if deleteSource then deleteSourceOfSummary db id_
  else { db with
    summaries := db.summaries.filter fun s => !(s.summaryId == id_)
    bindings := db.bindings.filter fun b => !(b.idPre == id_) }

/-- `SummaryDAOPostgresql.source_exists`: whether a source row keyed by the
content\x27s hash exists. Read-only. -/
def source_exists (db : DB) (source : String) : Bool :=
  (findSource db (dao_get_unique_key source)).isSome

/-- One DAO method call: all twelve operations of `SummaryDAOPostgresql`
(get_summary, insert_summary, delete_summary, update_summary, update_source,
update_preprocessed_id, update_cache_true, summary_exists, source_exists,
increment_summary_count, delete_if_not_cache, cleanup_cache). -/
inductive DaoOp where
  | opGetSummary (id_ : String)
  | opInsertSummary (id_ source : String) (output : Option String)
      (model : String) (params : Params) (status : SummaryStatus)
      (startedAt : Nat) (endedAt : Option Nat) (lang : String) (cache : Bool)
  | opDeleteSummary (id_ : String) (deleteSource : Bool)
  | opUpdateCacheTrue (id_ : String)
  | opDeleteIfNotCache (id_ : String)
  | opUpdatePreprocessedId (raw newPre : String)
  | opIncrementSummaryCount (id_ : String)
  | opUpdateSource (oldSource newSource oldSid newSid : String)
  | opUpdateSummary (id_ : String) (cols : UpdateCols)
  | opSummaryExists (id_ : String)
  | opSourceExists (source : String)
  | opCleanupCache (olderThan : Nat)
deriving Repr, DecidableEq

/-- The value a DAO method hands back to its caller. -/
inductive DaoRes where
  | rUnit
  | rSummary (r : Option (SummaryRow × SourceRow))
  | rCount (n : Option Nat)
  | rBool (b : Option Bool)
deriving Repr, DecidableEq

/-- The not-found/failure sentinel each method returns from its `except`
path: `None` for value-returning methods, plain fall-through for mutators. -/
def failureSentinel : DaoOp → DaoRes
  | .opGetSummary _ => .rSummary none
  | .opIncrementSummaryCount _ => .rCount none
  | .opUpdateSummary _ _ => .rSummary none
  | .opSummaryExists _ => .rBool none
  | .opSourceExists _ => .rBool none
  | _ => .rUnit

/-- Whether a result is a not-found/failure sentinel rather than a value. -/
def DaoRes.isFailure : DaoRes → Bool
  | .rUnit => true
  | .rSummary none => true
  | .rCount none => true
  | .rBool none => true
  | _ => false

/-- A DAO method body run against a connection attempt: with no connection the
body raises before executing any statement. -/
def runDaoAttempt (conn : Option Unit) (op : DaoOp) (db : DB) (now : Nat) :
    PyResult (DB × DaoRes) :=
  match conn with
  | none => .error .pyErr
  | some _ =>
    match op with
    | .opGetSummary i =>
        let (d, r) := get_summary db i now; .ok (d, .rSummary r)
    | .opInsertSummary i src out m ps st sa ea lg c =>
        match insertSummaryTx db i src out m ps st sa ea lg c now with
        | .ok d => .ok (d, .rUnit)
        | .error e => .error e
    | .opDeleteSummary i ds => .ok (delete_summary db i ds, .rUnit)
    | .opUpdateCacheTrue i => .ok (update_cache_true db i now, .rUnit)
    | .opDeleteIfNotCache i => .ok (delete_if_not_cache db i, .rUnit)
    | .opUpdatePreprocessedId r n => .ok (update_preprocessed_id db r n now, .rUnit)
    | .opIncrementSummaryCount i =>
        let (d, c) := increment_summary_count db i; .ok (d, .rCount c)
    | .opUpdateSource a b c2 d2 => .ok (update_source db a b c2 d2 now, .rUnit)
    | .opUpdateSummary i cols =>
        let (d, r) := update_summary db i cols now; .ok (d, .rSummary r)
    | .opSummaryExists i =>
        let (d, b) := summary_exists db i now; .ok (d, .rBool (some b))
    | .opSourceExists s => .ok (db, .rBool (some (source_exists db s)))
    | .opCleanupCache older => .ok (cleanup_cache db older now, .rUnit)

/-- A DAO method call as its caller observes it: the catch-all `except`
converts any raise into the method's failure sentinel, with the store
unchanged. -/
def runDao (conn : Option Unit) (op : DaoOp) (db : DB) (now : Nat) :
    DB × DaoRes :=
  match runDaoAttempt conn op db now with
  | .ok r => r
  | .error _ => (db, failureSentinel op)

/-! ### T5 parameter validation

`validate_params` (services/t5_large_text_summarizer/utils/param_validation.py).
Python floats are modelled as rationals (validation only compares them). -/

/-- Warning tokens for parameter validation. The `WarningMessage` enum revision
matching `param_validation.py` (with UNSUPPORTED, MIN_LENGTH, MAX_LENGTH,
MIN_LENGTH_DEFAULT, MAX_LENGTH_DEFAULT, LOWER_BOUNDED, BOUNDED members) is not
among the sources — the checked-in `warning_messages.py` is an older revision —
so the messages are modelled as opaque tokens named after the members
`param_validation.py` references. -/
inductive Wmsg where
  | unsupported
  | minLength
  | maxLength
  | minLengthDefault
  | maxLengthDefault
  | intType
  | lowerBounded
  | floatType
  | bounded
  | boolType
deriving Repr, DecidableEq

/-- The 11 supported parameter names in `DefaultParam` declaration order (the
iteration order of `for param in DefaultParam`), as listed by
`PARAMS_VALIDATION_REQUISITES` and by DEFAULT_VALUES in
src/test/test_rest_api.py. -/
def supportedParams : List String :=
  ["relative_max_length", "relative_min_length", "do_sample", "early_stopping",
   "num_beams", "temperature", "top_k", "top_p", "repetition_penalty",
   "length_penalty", "no_repeat_ngram_size"]

/-- Default parameter values (the `DefaultParam` enum). `default_params.py` is
not among the sources; the values are the ones the repository's test suite
records as the backend's defaults (DEFAULT_VALUES in
src/test/test_rest_api.py). -/
def defaultParamVal : String → PyVal
  | "relative_max_length" => .pFloat 0.4
  | "relative_min_length" => .pFloat 0.1
  | "do_sample" => .pBool true
  | "num_beams" => .pInt 4
  | "no_repeat_ngram_size" => .pInt 4
  | _ => .pNone

/-- Required value type of a parameter. -/
inductive ParamTy where
  | tInt
  | tFloat
  | tBool
deriving Repr, DecidableEq

/-- One entry of `PARAMS_VALIDATION_REQUISITES`. -/
structure ParamReqs where
  ty : ParamTy
  lowerBound : Option ℚ := none
  upperBound : Option ℚ := none
deriving Repr, DecidableEq

/-- `PARAMS_VALIDATION_REQUISITES`: validation requirements per parameter. -/
def paramReqs : String → Option ParamReqs
  | "relative_max_length" => some ⟨.tFloat, some 0.1, some 1.0⟩
  | "relative_min_length" => some ⟨.tFloat, some 0.1, some 1.0⟩
  | "do_sample" => some ⟨.tBool, none, none⟩
  | "early_stopping" => some ⟨.tBool, none, none⟩
  | "num_beams" => some ⟨.tInt, some 0, none⟩
  | "temperature" => some ⟨.tFloat, none, none⟩
  | "top_k" => some ⟨.tInt, none, none⟩
  | "top_p" => some ⟨.tFloat, none, none⟩
  | "repetition_penalty" => some ⟨.tFloat, none, none⟩
  | "length_penalty" => some ⟨.tFloat, none, none⟩
  | "no_repeat_ngram_size" => some ⟨.tInt, some 0, none⟩
  | _ => none

/-- `_validate_bounds`: inclusive bound check. -/
def validateBounds (v : ℚ) (lo hi : Option ℚ) : Bool :=
  (match lo with | none => true | some l => decide (l ≤ v)) &&
  (match hi with | none => true | some h => decide (v ≤ h))

/-- `_validate_value`: type check (Python `type(value) is ...`, so a bool is
not an int and an int is not a float), then bound check; returns validity and
the warning list. -/
def validateValue (v : PyVal) (r : ParamReqs) : Bool × List Wmsg :=
  let ws : List Wmsg :=
    match r.ty with
    | .tInt =>
      match v with
      | .pInt n =>
          if validateBounds (n : ℚ) r.lowerBound r.upperBound then [] else [.lowerBounded]
      | _ => [.intType]
    | .tFloat =>
      match v with
      | .pFloat q =>
          if validateBounds q r.lowerBound r.upperBound then [] else [.bounded]
      | _ => [.floatType]
    | .tBool =>
      match v with
      | .pBool _ => []
      | _ => [.boolType]
  (ws.isEmpty, ws)

/-- Warnings the per-entry loop of `validate_params` records for one entry:
`[unsupported]` for an unknown key, otherwise the `_validate_value`
warnings. -/
def entryWmsgs (k : String) (v : PyVal) : List Wmsg :=
  match paramReqs k with
  | none => [.unsupported]
  | some r => (validateValue v r).2

/-- Whether the per-entry loop marks the entry invalid. -/
def entryInvalid (k : String) (v : PyVal) : Bool :=
  match paramReqs k with
  | none => true
  | some r => !(validateValue v r).1

/-- The `invalid_params` dict after the per-entry loop: the loop appends, in
iteration order, each entry that fails validation. -/
def phase1Invalid (ps : Params) : Params :=
  ps.filter fun kv => entryInvalid kv.1 kv.2

/-- The `warning_messages` dict after the per-entry loop. -/
def phase1Wmsgs (ps : Params) : List (String × List Wmsg) :=
  ps.filterMap fun kv =>
    let ws := entryWmsgs kv.1 kv.2
    if ws.isEmpty then none else some (kv.1, ws)

/-- Python dict item assignment `d[k] = v` on an association list: replace in
place if the key exists, otherwise append. -/
def setVal {β : Type} (ps : List (String × β)) (k : String) (v : β) :
    List (String × β) :=
  if (ps.lookup k).isSome then
    ps.map fun kv => if kv.1 = k then (k, v) else kv
  else ps ++ [(k, v)]

/-- Numeric value of a parameter (Python numbers: bools are ints). -/
def pyNum : PyVal → Option ℚ
  | .pInt n => some (n : ℚ)
  | .pFloat q => some q
  | .pBool b => some (if b then 1 else 0)
  | _ => none

/-- Python `>=` on parameter values. The values compared by the cross-field
checks are always numeric (invalid entries were replaced by numeric defaults
first); a non-numeric comparison would raise in Python and maps to
`false`. -/
def pyGE (a b : PyVal) : Bool :=
  match pyNum a, pyNum b with
  | some x, some y => decide (y ≤ x)
  | _, _ => false

/-- Python `<=` on parameter values, as in `pyGE`. -/
def pyLE (a b : PyVal) : Bool :=
  match pyNum a, pyNum b with
  | some x, some y => decide (x ≤ y)
  | _, _ => false

/-- Key of the relative minimum length parameter. -/
def minName : String := "relative_min_length"

/-- Key of the relative maximum length parameter. -/
def maxName : String := "relative_max_length"

/-- `validate_params`: per-entry validation, then the min/max cross-field
checks in their `if`/`elif` order (both-present-and-violating first, then
one-present-conflicting-with-the-other's-default), then removal of invalid
entries and filling of missing supported parameters with defaults. Returns
(validated params, invalid params, warning messages). -/
def validate_params (ps0 : Params) :
    Params × Params × List (String × List Wmsg) :=
  let inv0 := phase1Invalid ps0
  let wm0 := phase1Wmsgs ps0
  let ps1 :=
    if (inv0.lookup minName).isSome then setVal ps0 minName (defaultParamVal minName)
    else ps0
  let ps2 :=
    if (inv0.lookup maxName).isSome then setVal ps1 maxName (defaultParamVal maxName)
    else ps1
  let minV := ps2.lookup minName
  let maxV := ps2.lookup maxName
  let (inv1, wm1) :=
    if minV.isSome && maxV.isSome && pyGE (minV.getD .pNone) (maxV.getD .pNone) then
      let inv := setVal (setVal inv0 minName (minV.getD .pNone)) maxName (maxV.getD .pNone)
      let wmA := if (wm0.lookup minName).isSome then wm0
                 else wm0 ++ [(minName, [Wmsg.minLength])]
      let wmB := if (wmA.lookup maxName).isSome then wmA
                 else wmA ++ [(maxName, [Wmsg.maxLength])]
      (inv, wmB)
    else if minV.isSome && !maxV.isSome && pyGE (minV.getD .pNone) (defaultParamVal maxName)
    then
      let inv := setVal inv0 minName (minV.getD .pNone)
      let wmA := if (wm0.lookup minName).isSome then wm0
                 else wm0 ++ [(minName, [Wmsg.minLengthDefault])]
      (inv, wmA)
    else if !minV.isSome && maxV.isSome && pyLE (maxV.getD .pNone) (defaultParamVal minName)
    then
      let inv := setVal inv0 maxName (maxV.getD .pNone)
      let wmA := if (wm0.lookup maxName).isSome then wm0
                 else wm0 ++ [(maxName, [Wmsg.maxLengthDefault])]
      (inv, wmA)
    else (inv0, wm0)
  let ps4 := ps2.filter fun kv => (inv1.lookup kv.1).isNone
  let ps5 := supportedParams.foldl
    (fun acc k => if (acc.lookup k).isSome then acc else acc ++ [(k, defaultParamVal k)])
    ps4
  (ps5, inv1, wm1)

/-! ### The plain-text request schema

`PlainTextRequestSchema.validate_and_set_defaults`
(services/dispatcher/data/schemas.py, a marshmallow `@pre_load` hook). -/

/-- Supported model names (`SupportedModel` enum values). `supported_models.py`
is not among the sources; the dispatcher's `warning_messages.py` references
`SupportedModel.T5_LARGE` and the test suite pins its value "t5-large". -/
def supportedModels : List String := ["t5-large"]

/-- Supported language tags (`SupportedLanguage` enum values);
`SupportedLanguage.ENGLISH` with value "en", as pinned by the test suite. -/
def supportedLanguages : List String := ["en"]

/-- Warning tokens of the dispatcher's `WarningMessage` enum
(services/dispatcher/data/warning_messages.py). -/
inductive ReqWarn where
  | unsupportedModel
  | unsupportedLanguage
deriving Repr, DecidableEq

/-- A value in a client's plain-text request dictionary: a JSON string, bool
or null, a params object, a warnings object, or any other JSON value
(`rOther`) — the checks only distinguish null, strings and presence. -/
inductive ReqVal where
  | rStr (s : String)
  | rBool (b : Bool)
  | rNull
  | rParams (ps : Params)
  | rWarnings (w : List (String × List ReqWarn))
  | rOther
deriving Repr, DecidableEq

/-- A client request body, as a string-keyed dictionary. -/
abbrev ReqData := List (String × ReqVal)

/-- Whether a supplied model/language value fails Python's
`value is None or value not in supported` test: `None`, any non-string value,
and any string not in the supported list. -/
def badName (supported : List String) : ReqVal → Bool
  | .rStr s => !(supported.contains s)
  | _ => true

/-- The `"x" not in data or data["x"] is None or data["x"] not in supported`
condition of the model and language checks, as a predicate on the looked-up
value (`none` meaning the key is absent). -/
def nameCheckFails (supported : List String) (v : Option ReqVal) : Bool :=
  v.all (badName supported)

/-- The `"x" not in data or data["x"] is None` condition of the params and
cache checks. -/
def absentOrNull : Option ReqVal → Bool
  | none => true
  | some .rNull => true
  | some _ => false

/-- `PlainTextRequestSchema.validate_and_set_defaults`: drop any
client-supplied `warnings` entry; default `model` when absent, `None` or
unsupported (recording a warning); default `params` to the empty dict when
absent or `None`; default `language` likewise to "en" with a warning; default
`cache` to `True` when absent or `None` (no warning); finally store the
accumulated warnings under `warnings` if any were produced. -/
def validate_and_set_defaults (data : ReqData) : ReqData :=
  let d0 := data.filter fun kv => kv.1 ≠ "warnings"
  let modelBad := nameCheckFails supportedModels (d0.lookup "model")
  let d1 := if modelBad then setVal d0 "model" (.rStr "t5-large") else d0
  let paramsBad := absentOrNull (d1.lookup "params")
  let d2 := if paramsBad then setVal d1 "params" (.rParams []) else d1
  let langBad := nameCheckFails supportedLanguages (d2.lookup "language")
  let d3 := if langBad then setVal d2 "language" (.rStr "en") else d2
  let cacheBad := absentOrNull (d3.lookup "cache")
  let d4 := if cacheBad then setVal d3 "cache" (.rBool true) else d3
  let wm : List (String × List ReqWarn) :=
    (if modelBad then [("model", [ReqWarn.unsupportedModel])] else []) ++
    (if langBad then [("language", [ReqWarn.unsupportedLanguage])] else [])
  if wm.isEmpty then d4 else setVal d4 "warnings" (.rWarnings wm)

/-! ### Concrete stores and operation wrappers used by the claims -/

/-- A store holding one stale binding: cache false, summary completed,
last accessed at time 0. -/
def exDB7 : DB :=
  { sources := [⟨"src7", "some text", 9⟩]
    summaries := [⟨"sum7", "src7", some "out", some 3, "t5-large", [],
      SummaryStatus.completed, 0, some 1, "en", 1, []⟩]
    bindings := [⟨"sum7", "sum7", false, 0⟩] }

/-- A store holding one in-flight summary with no accumulated warnings. -/
def exDB3 : DB :=
  { sources := [⟨"src3", "text", 4⟩]
    summaries := [⟨"k3", "src3", none, none, "t5-large", [],
      SummaryStatus.postprocessing, 0, none, "en", 1, []⟩]
    bindings := [⟨"k3", "k3", true, 0⟩] }

/-- The terminal completion event for `exDB3`, carrying output, validated
params and a nonempty warnings map. -/
def exEv3 : StatusEvent :=
  { status := SummaryStatus.completed
    output := some "out"
    params := some [("num_beams", PyVal.pInt 4)]
    warnings := some [("temperature", ["warn"])] }

/-- An example request: unsupported model, client-supplied `warnings` entry,
`cache` and `language` absent. -/
def exReq : ReqData :=
  [("source", .rStr "txt"), ("warnings", .rOther), ("model", .rStr "nope")]

/-- The cache-affecting operations a requester can trigger against bindings:
a cache-true request (`update_cache_true`), a fetch-time opt-out
(`delete_if_not_cache`), and a rebind (`update_preprocessed_id`, which ORs
the repointed binding's flag onto the target's self-binding). -/
inductive CacheOp where
  | cacheTrue (id_ : String) (now : Nat)
  | optOut (id_ : String)
  | rebindPre (raw newPre : String) (now : Nat)
deriving Repr, DecidableEq

/-- Apply one cache operation to the store. -/
def applyCacheOp : CacheOp → DB → DB
  | .cacheTrue i n, db => update_cache_true db i n
  | .optOut i, db => delete_if_not_cache db i
  | .rebindPre r p n, db => update_preprocessed_id db r p n

/-- Apply a sequence of cache operations, oldest first. -/
def applyCacheOps (ops : List CacheOp) (db : DB) : DB :=
  ops.foldl (fun d op => applyCacheOp op d) db

/-- A store with a raw binding "a1" (cache true), its canonical self-binding
"p1" (cache false), and a third binding "b1" (cache false). -/
def exDB1 : DB :=
  { sources := [⟨"s1", "t", 1⟩]
    summaries := [⟨"p1", "s1", none, none, "t5-large", [],
      SummaryStatus.completed, 0, none, "en", 0, []⟩]
    bindings := [⟨"a1", "p1", true, 0⟩, ⟨"p1", "p1", false, 0⟩,
      ⟨"b1", "p1", false, 0⟩] }

/-- A small store without any binding for "zz". -/
def exDB9 : DB :=
  { sources := [⟨"s9", "t", 1⟩]
    summaries := [⟨"p9", "s9", none, none, "t5-large", [],
      SummaryStatus.encoding, 0, none, "en", 0, []⟩]
    bindings := [⟨"p9", "p9", true, 0⟩] }

/-- The condition under which `delete_if_not_cache` deletes the summary after
deleting a cache-false binding `b`: the binding was a self-binding, or the
canonical identifier\x27s self-binding remains and has `cache = false`. -/
def selfOrUncachedSelf (db : DB) (id_ : String) (b : BindingRow) : Bool :=
  (id_ == b.idPre) ||
  (match findBinding (dropBinding db id_) b.idPre with
   | some sb => !sb.cache
   | none => false)

/-- C8 counterexample store: raw binding "a8" (cache false), canonical
self-binding "p8" (cache false), and a third binding "b8" with
`cache = true`, all to summary "p8". -/
def exDB8 : DB :=
  { sources := [⟨"s8", "t", 1⟩]
    summaries := [⟨"p8", "s8", some "o", some 1, "t5-large", [],
      SummaryStatus.completed, 0, some 1, "en", 1, []⟩]
    bindings := [⟨"a8", "p8", false, 0⟩, ⟨"p8", "p8", false, 0⟩,
      ⟨"b8", "p8", true, 0⟩] }

/-- The preprocessed identifier of the concrete C2 stores: text `"p"`, model
`"m"`, empty params. -/
def racePre : String := get_unique_key "p" "m" []

/-- Store exercising the rebind race: an in-flight (not completed) summary
already sits at `racePre`, put there by a concurrent identical request. -/
def dbRace : DB :=
  ⟨[⟨dao_get_unique_key "r", "r", 1⟩, ⟨dao_get_unique_key "p", "p", 1⟩],
   [⟨"kb", dao_get_unique_key "r", none, none, "m", [],
      SummaryStatus.preprocessing, 0, none, "en", 1, []⟩,
    ⟨racePre, dao_get_unique_key "p", none, none, "m", [],
      SummaryStatus.preprocessing, 0, none, "en", 1, []⟩],
   [⟨"kb", "kb", false, 0⟩, ⟨racePre, racePre, false, 0⟩]⟩

/-- Rows of the concrete store for the completed branch of C2. -/
def spA : SummaryRow :=
  ⟨racePre, "s1", some "o", some 1, "m", [], SummaryStatus.completed, 0,
    some 1, "en", 1, []⟩

def soA : SummaryRow :=
  ⟨"kb", "s2", none, none, "m", [], SummaryStatus.preprocessing, 0, none,
    "en", 1, []⟩

def bpA : BindingRow := ⟨racePre, racePre, true, 0⟩

def bkA : BindingRow := ⟨"kb", "kb", false, 0⟩

def srcpA : SourceRow := ⟨"s1", "q", 1⟩

def dbA : DB := ⟨[srcpA, ⟨"s2", "r", 1⟩], [spA, soA], [bpA, bkA]⟩

/-- Rows of the concrete store for the migrate branch of C2. -/
def soB : SummaryRow :=
  ⟨"kb", dao_get_unique_key "r", none, none, "m", [],
    SummaryStatus.preprocessing, 0, none, "en", 1, []⟩

def srcB : SourceRow := ⟨dao_get_unique_key "r", "r", 1⟩

def bkB : BindingRow := ⟨"kb", "kb", false, 0⟩

def dbB : DB := ⟨[srcB], [soB], [bkB]⟩

/-! ### Association list toolkit -/

theorem lookup_append_or {β : Type} (l1 l2 : List (String × β)) (k : String) :
    (l1 ++ l2).lookup k = ((l1.lookup k).orElse fun _ => l2.lookup k) := by
  induction l1 with
  | nil => rfl
  | cons kv t ih =>
    obtain ⟨k1, v1⟩ := kv
    by_cases h : k = k1
    · simp [List.lookup, h]
    · simp only [List.cons_append, List.lookup, beq_false_of_ne h,
        List.append_eq, ih]

theorem lookup_filter_of_key_kept {β : Type} (p : String × β → Bool)
    (l : List (String × β)) (k : String) (hp : ∀ v, p (k, v) = true) :
    (l.filter p).lookup k = l.lookup k := by
  induction l with
  | nil => rfl
  | cons kv t ih =>
    obtain ⟨k1, v1⟩ := kv
    by_cases h : k = k1
    · subst h
      simp [List.filter, hp v1, List.lookup]
    · by_cases hq : p (k1, v1)
      · simp only [List.filter, hq, List.lookup, beq_false_of_ne h, ih]
      · simp only [List.filter, hq, List.lookup, beq_false_of_ne h, ih,
          Bool.false_eq_true, if_false]

theorem lookup_filter_none {β : Type} (p : String × β → Bool)
    (l : List (String × β)) (k : String) (h : l.lookup k = none) :
    (l.filter p).lookup k = none := by
  induction l with
  | nil => rfl
  | cons kv t ih =>
    obtain ⟨k1, v1⟩ := kv
    by_cases hk : k = k1
    · subst hk
      simp [List.lookup] at h
    · simp only [List.lookup, beq_false_of_ne hk] at h
      by_cases hq : p (k1, v1)
      · simp only [List.filter, hq, List.lookup, beq_false_of_ne hk, ih h]
      · simp only [List.filter, hq, Bool.false_eq_true, if_false, ih h]

/-! ### C4: the warnings merge -/

theorem lookup_update_warnings_mapped (old nw : WMap) (k : String) :
    ((old.map fun kv =>
        match nw.lookup kv.1 with
        | some v => (kv.1, kv.2 ++ v)
        | none => kv).lookup k) =
      (old.lookup k).map fun vo =>
        match nw.lookup k with
        | some v => vo ++ v
        | none => vo := by
  induction old with
  | nil => rfl
  | cons kv t ih =>
    obtain ⟨k1, v1⟩ := kv
    by_cases h : k = k1
    · subst h
      cases hnw : nw.lookup k <;> simp [List.lookup, hnw]
    · cases hnw : nw.lookup k1 <;>
        simp only [List.map, hnw, List.lookup, beq_false_of_ne h, ih]

/-- C4: for every pair of warning maps, the merge performed by
`ConsumerLoop._update_warnings` maps each key present in both maps to the old
list concatenated with the new list in that order, keeps keys present only in
the old map unchanged, adds keys present only in the new map with their new
value, and returns the old map unchanged when the new map is absent (`None`)
or empty. -/
theorem claim_C4 (old nw : WMap) (k : String) :
    (∀ vo vn, old.lookup k = some vo → nw.lookup k = some vn →
        (update_warnings old (some nw)).lookup k = some (vo ++ vn)) ∧
    (∀ vo, old.lookup k = some vo → nw.lookup k = none →
        (update_warnings old (some nw)).lookup k = some vo) ∧
    (old.lookup k = none →
        (update_warnings old (some nw)).lookup k = nw.lookup k) ∧
    update_warnings old none = old ∧
    update_warnings old (some []) = old := by
  refine ⟨?_, ?_, ?_, rfl, by simp [update_warnings]⟩
  · intro vo vn ho hn
    have hne : nw.isEmpty = false := by
      cases nw with
      | nil => simp [List.lookup] at hn
      | cons h t => rfl
    simp only [update_warnings, hne, Bool.false_eq_true, if_false]
    rw [lookup_append_or, lookup_update_warnings_mapped, ho, hn]
    rfl
  · intro vo ho hn
    by_cases hne : nw.isEmpty
    · simp only [update_warnings, hne, if_true, ho]
    · have hne' : nw.isEmpty = false := by simpa using hne
      simp only [update_warnings, hne', Bool.false_eq_true, if_false]
      rw [lookup_append_or, lookup_update_warnings_mapped, ho, hn]
      rfl
  · intro ho
    by_cases hne : nw.isEmpty
    · cases nw with
      | nil => simp [update_warnings, ho, List.lookup]
      | cons h t => simp [List.isEmpty] at hne
    · have hne' : nw.isEmpty = false := by simpa using hne
      simp only [update_warnings, hne', Bool.false_eq_true, if_false]
      rw [lookup_append_or, lookup_update_warnings_mapped, ho]
      show ((none : Option (List String)).orElse _) = _
      simp only [Option.orElse, Option.none_bind]
      exact lookup_filter_of_key_kept _ nw k fun v => by simp [ho]

/-- Witness for C4 at concrete maps: common key "a" concatenates, old-only
key "b" is preserved, new-only key "c" is added, and an empty new map leaves
the old map unchanged. -/
theorem claim_C4_witness :
    (update_warnings [("a", ["x"]), ("b", ["y"])]
        (some [("a", ["z"]), ("c", ["w"])])).lookup "a" = some (["x"] ++ ["z"]) ∧
    (update_warnings [("a", ["x"]), ("b", ["y"])]
        (some [("a", ["z"]), ("c", ["w"])])).lookup "b" = some ["y"] ∧
    (update_warnings [("a", ["x"]), ("b", ["y"])]
        (some [("a", ["z"]), ("c", ["w"])])).lookup "c" =
      ([("a", ["z"]), ("c", ["w"])] : WMap).lookup "c" ∧
    update_warnings [("a", ["x"]), ("b", ["y"])] (some []) =
      [("a", ["x"]), ("b", ["y"])] :=
  ⟨(claim_C4 [("a", ["x"]), ("b", ["y"])] [("a", ["z"]), ("c", ["w"])] "a").1
      ["x"] ["z"] (by decide) (by decide),
   (claim_C4 [("a", ["x"]), ("b", ["y"])] [("a", ["z"]), ("c", ["w"])] "b").2.1
      ["y"] (by decide) (by decide),
   (claim_C4 [("a", ["x"]), ("b", ["y"])] [("a", ["z"]), ("c", ["w"])] "c").2.2.1
      (by decide),
   (claim_C4 [("a", ["x"]), ("b", ["y"])] [] "x").2.2.2.2⟩

/-! ### C6: identifier derivation and key insertion order -/

/-- C6 supporting theorem: two parameter dictionaries that are equal as maps —
a permutation of one another with identical lookups — on which
`get_unique_key` returns different identifiers: Python's `str(params)`
renders entries in insertion order, so logically equal dictionaries built in
different orders hash differently. -/
theorem claim_C6 :
    ([("a", PyVal.pInt 1), ("b", PyVal.pInt 2)] : Params).Perm
      [("b", PyVal.pInt 2), ("a", PyVal.pInt 1)] ∧
    (∀ k, ([("a", PyVal.pInt 1), ("b", PyVal.pInt 2)] : Params).lookup k =
        ([("b", PyVal.pInt 2), ("a", PyVal.pInt 1)] : Params).lookup k) ∧
    get_unique_key "text" "t5-large" [("a", PyVal.pInt 1), ("b", PyVal.pInt 2)] ≠
      get_unique_key "text" "t5-large" [("b", PyVal.pInt 2), ("a", PyVal.pInt 1)] := by
  refine ⟨by decide, ?_, by decide⟩
  intro k
  by_cases ha : k = "a"
  · subst ha; decide
  · by_cases hb : k = "b"
    · subst hb; decide
    · simp [List.lookup, beq_false_of_ne ha, beq_false_of_ne hb]

/-! ### C7: the cache cleanup sweep -/

/-- C7 supporting theorem: `cleanup_cache` leaves every store unchanged (its
transaction raises a client-side `TypeError` before committing, see
`cleanupCacheTx`), so after `cleanup_cache` a binding with `cache = false`,
completed target summary and `last_accessed` older than the threshold still
remains, contradicting the claim. -/
theorem claim_C7 :
    (∀ (db : DB) (olderThan now : Nat), cleanup_cache db olderThan now = db) ∧
    (∃ b ∈ (cleanup_cache exDB7 60 1000).bindings,
      b.cache = false ∧
      (findSummary (cleanup_cache exDB7 60 1000) b.idPre).any
        (fun s => s.status == SummaryStatus.completed) ∧
      b.lastAccessed + 60 < 1000) :=
  ⟨fun _ _ _ => rfl, by decide⟩

/-! ### C3: redelivery of a terminal completion event -/

/-- C3 supporting theorem: applying the Coordinator's completion handling
twice (same event, same clock) does not equal applying it once — the event's
warning list is concatenated a second time onto the stored warnings. -/
theorem claim_C3 :
    (handle_status_update exDB3 "k3" exEv3 7).map
        (fun r => (findSummary r.1 "k3").map SummaryRow.warnings) =
      some (some [("temperature", ["warn"])]) ∧
    ((handle_status_update exDB3 "k3" exEv3 7).bind
        (fun r => handle_status_update r.1 "k3" exEv3 7)).map
        (fun r => (findSummary r.1 "k3").map SummaryRow.warnings) =
      some (some [("temperature", ["warn", "warn"])]) ∧
    (handle_status_update exDB3 "k3" exEv3 7).bind
        (fun r => handle_status_update r.1 "k3" exEv3 7) ≠
      handle_status_update exDB3 "k3" exEv3 7 := by
  refine ⟨by decide, by decide, by decide⟩

/-! ### More association list lemmas (dict item assignment) -/

theorem lookup_filter_of_key_dropped {β : Type} (p : String × β → Bool)
    (l : List (String × β)) (k : String) (hp : ∀ v, p (k, v) = false) :
    (l.filter p).lookup k = none := by
  induction l with
  | nil => rfl
  | cons kv t ih =>
    obtain ⟨k1, v1⟩ := kv
    by_cases h : k = k1
    · subst h
      simp only [List.filter, hp v1, Bool.false_eq_true, if_false, ih]
    · by_cases hq : p (k1, v1)
      · simp only [List.filter, hq, List.lookup, beq_false_of_ne h, ih]
      · simp only [List.filter, hq, Bool.false_eq_true, if_false, ih]

theorem lookup_map_set {β : Type} (l : List (String × β)) (k : String) (v : β) :
    ((l.map fun kv => if kv.1 = k then (k, v) else kv).lookup k) =
      (l.lookup k).map fun _ => v := by
  induction l with
  | nil => rfl
  | cons kv t ih =>
    obtain ⟨k1, v1⟩ := kv
    by_cases h : k1 = k
    · subst h
      have hh : (if ((k1, v1) : String × β).1 = k1 then (k1, v) else (k1, v1)) = (k1, v) :=
        if_pos rfl
      rw [List.map_cons, hh]
      simp [List.lookup]
    · have hh : (if ((k1, v1) : String × β).1 = k then (k, v) else (k1, v1)) = (k1, v1) :=
        if_neg h
      rw [List.map_cons, hh]
      simp only [List.lookup, beq_false_of_ne (fun hh2 => h hh2.symm), ih]

theorem lookup_map_set_ne {β : Type} (l : List (String × β)) (k k' : String)
    (v : β) (hne : k' ≠ k) :
    ((l.map fun kv => if kv.1 = k then (k, v) else kv).lookup k') = l.lookup k' := by
  induction l with
  | nil => rfl
  | cons kv t ih =>
    obtain ⟨k1, v1⟩ := kv
    by_cases h : k1 = k
    · subst h
      have hh : (if ((k1, v1) : String × β).1 = k1 then (k1, v) else (k1, v1)) = (k1, v) :=
        if_pos rfl
      rw [List.map_cons, hh]
      simp only [List.lookup, beq_false_of_ne hne, ih]
    · have hh : (if ((k1, v1) : String × β).1 = k then (k, v) else (k1, v1)) = (k1, v1) :=
        if_neg h
      rw [List.map_cons, hh]
      by_cases h2 : k' = k1
      · subst h2
        simp [List.lookup]
      · simp only [List.lookup, beq_false_of_ne h2, ih]

theorem lookup_setVal_self {β : Type} (l : List (String × β)) (k : String) (v : β) :
    (setVal l k v).lookup k = some v := by
  unfold setVal
  by_cases h : (l.lookup k).isSome
  · rw [if_pos h, lookup_map_set]
    obtain ⟨w, hw⟩ := Option.isSome_iff_exists.mp h
    rw [hw]; rfl
  · rw [if_neg h, lookup_append_or]
    have : l.lookup k = none := Option.not_isSome_iff_eq_none.mp h
    rw [this]
    simp [List.lookup, Option.orElse]

theorem lookup_setVal_ne {β : Type} (l : List (String × β)) (k k' : String)
    (v : β) (hne : k' ≠ k) :
    (setVal l k v).lookup k' = l.lookup k' := by
  unfold setVal
  by_cases h : (l.lookup k).isSome
  · rw [if_pos h, lookup_map_set_ne _ _ _ _ hne]
  · rw [if_neg h, lookup_append_or]
    cases hl : l.lookup k' with
    | some w => rfl
    | none => simp [List.lookup, beq_false_of_ne hne, Option.orElse]

/-! ### C10: plain-text request defaulting -/

/-- Complete characterization of the lookups of
`validate_and_set_defaults`: each checked field is defaulted exactly when its
check fails, and the `warnings` entry is exactly the accumulated server-side
warnings. -/
theorem vasd_lookups (data : ReqData) :
    (validate_and_set_defaults data).lookup "model" =
      (if nameCheckFails supportedModels (data.lookup "model")
       then some (ReqVal.rStr "t5-large") else data.lookup "model") ∧
    (validate_and_set_defaults data).lookup "language" =
      (if nameCheckFails supportedLanguages (data.lookup "language")
       then some (ReqVal.rStr "en") else data.lookup "language") ∧
    (validate_and_set_defaults data).lookup "cache" =
      (if absentOrNull (data.lookup "cache")
       then some (ReqVal.rBool true) else data.lookup "cache") ∧
    (validate_and_set_defaults data).lookup "params" =
      (if absentOrNull (data.lookup "params")
       then some (ReqVal.rParams []) else data.lookup "params") ∧
    (validate_and_set_defaults data).lookup "warnings" =
      (if ((if nameCheckFails supportedModels (data.lookup "model")
            then [("model", [ReqWarn.unsupportedModel])] else []) ++
           (if nameCheckFails supportedLanguages (data.lookup "language")
            then [("language", [ReqWarn.unsupportedLanguage])] else [])).isEmpty
       then none
       else some (ReqVal.rWarnings
         ((if nameCheckFails supportedModels (data.lookup "model")
           then [("model", [ReqWarn.unsupportedModel])] else []) ++
          (if nameCheckFails supportedLanguages (data.lookup "language")
           then [("language", [ReqWarn.unsupportedLanguage])] else [])))) := by
  simp only [validate_and_set_defaults]
  set d0 := data.filter fun kv : String × ReqVal => kv.1 ≠ "warnings" with hd0
  have h0 : ∀ k : String, k ≠ "warnings" → d0.lookup k = data.lookup k := by
    intro k hk
    rw [hd0]
    exact lookup_filter_of_key_kept _ data k fun v => by simp [hk]
  have h0w : d0.lookup "warnings" = none := by
    rw [hd0]
    exact lookup_filter_of_key_dropped _ data "warnings" fun v => by simp
  rw [h0 "model" (by decide)]
  set mB := nameCheckFails supportedModels (data.lookup "model") with hmB
  set d1 := (if mB then setVal d0 "model" (.rStr "t5-large") else d0) with hd1
  have s1 : ∀ k : String, k ≠ "model" → d1.lookup k = d0.lookup k := by
    intro k hk
    rw [hd1]; split
    · exact lookup_setVal_ne _ _ _ _ hk
    · rfl
  have s1m : d1.lookup "model" =
      (if mB then some (ReqVal.rStr "t5-large") else data.lookup "model") := by
    rw [hd1]; split
    · rw [lookup_setVal_self]
    · rw [h0 "model" (by decide)]
  rw [s1 "params" (by decide), h0 "params" (by decide)]
  set pB := absentOrNull (data.lookup "params") with hpB
  set d2 := (if pB then setVal d1 "params" (.rParams []) else d1) with hd2
  have s2 : ∀ k : String, k ≠ "params" → d2.lookup k = d1.lookup k := by
    intro k hk
    rw [hd2]; split
    · exact lookup_setVal_ne _ _ _ _ hk
    · rfl
  have s2p : d2.lookup "params" =
      (if pB then some (ReqVal.rParams []) else data.lookup "params") := by
    rw [hd2]; split
    · rw [lookup_setVal_self]
    · rw [s1 "params" (by decide), h0 "params" (by decide)]
  rw [s2 "language" (by decide), s1 "language" (by decide), h0 "language" (by decide)]
  set lB := nameCheckFails supportedLanguages (data.lookup "language") with hlB
  set d3 := (if lB then setVal d2 "language" (.rStr "en") else d2) with hd3
  have s3 : ∀ k : String, k ≠ "language" → d3.lookup k = d2.lookup k := by
    intro k hk
    rw [hd3]; split
    · exact lookup_setVal_ne _ _ _ _ hk
    · rfl
  have s3l : d3.lookup "language" =
      (if lB then some (ReqVal.rStr "en") else data.lookup "language") := by
    rw [hd3]; split
    · rw [lookup_setVal_self]
    · rw [s2 "language" (by decide), s1 "language" (by decide),
        h0 "language" (by decide)]
  rw [s3 "cache" (by decide), s2 "cache" (by decide), s1 "cache" (by decide),
    h0 "cache" (by decide)]
  set cB := absentOrNull (data.lookup "cache") with hcB
  set d4 := (if cB then setVal d3 "cache" (.rBool true) else d3) with hd4
  have s4 : ∀ k : String, k ≠ "cache" → d4.lookup k = d3.lookup k := by
    intro k hk
    rw [hd4]; split
    · exact lookup_setVal_ne _ _ _ _ hk
    · rfl
  have s4c : d4.lookup "cache" =
      (if cB then some (ReqVal.rBool true) else data.lookup "cache") := by
    rw [hd4]; split
    · rw [lookup_setVal_self]
    · rw [s3 "cache" (by decide), s2 "cache" (by decide), s1 "cache" (by decide),
        h0 "cache" (by decide)]
  set wm := ((if mB then [("model", [ReqWarn.unsupportedModel])] else []) ++
      (if lB then [("language", [ReqWarn.unsupportedLanguage])] else [])) with hwm
  set res := (if wm.isEmpty then d4 else setVal d4 "warnings" (.rWarnings wm)) with hres
  have t : ∀ k : String, k ≠ "warnings" → res.lookup k = d4.lookup k := by
    intro k hk
    rw [hres]; split
    · rfl
    · exact lookup_setVal_ne _ _ _ _ hk
  have tw : res.lookup "warnings" =
      (if wm.isEmpty then none else some (ReqVal.rWarnings wm)) := by
    rw [hres]; split
    · rw [s4 "warnings" (by decide), s3 "warnings" (by decide),
        s2 "warnings" (by decide), s1 "warnings" (by decide), h0w]
    · rw [lookup_setVal_self]
  refine ⟨?_, ?_, ?_, ?_, ?_⟩
  · rw [t "model" (by decide), s4 "model" (by decide), s3 "model" (by decide),
      s2 "model" (by decide), s1m]
  · rw [t "language" (by decide), s4 "language" (by decide), s3l]
  · rw [t "cache" (by decide), s4c]
  · rw [t "params" (by decide), s4 "params" (by decide), s3 "params" (by decide), s2p]
  · exact tw

/-- C10: `validate_and_set_defaults` ignores any client-supplied `warnings`
entry (the result equals the result on the request with that entry removed,
and any warnings in the result are exactly the server-side model/language
defaulting warnings); a missing, `None` or unsupported model (resp. language)
is replaced by the default with a warning recorded under that key; a missing
or `None` cache field defaults to `true`, and no warning is ever recorded
under `cache`. -/
theorem claim_C10 (data : ReqData) :
    (validate_and_set_defaults data =
      validate_and_set_defaults (data.filter fun kv => kv.1 ≠ "warnings")) ∧
    (∀ w, (validate_and_set_defaults data).lookup "warnings" = some w →
      ∃ wm, w = ReqVal.rWarnings wm ∧ wm ≠ [] ∧
        ∀ kv ∈ wm, (kv.1 = "model" ∧ kv.2 = [ReqWarn.unsupportedModel]) ∨
          (kv.1 = "language" ∧ kv.2 = [ReqWarn.unsupportedLanguage])) ∧
    (nameCheckFails supportedModels (data.lookup "model") = true →
      (validate_and_set_defaults data).lookup "model" = some (.rStr "t5-large") ∧
      ∃ wm, (validate_and_set_defaults data).lookup "warnings" =
          some (ReqVal.rWarnings wm) ∧
        wm.lookup "model" = some [ReqWarn.unsupportedModel]) ∧
    (nameCheckFails supportedLanguages (data.lookup "language") = true →
      (validate_and_set_defaults data).lookup "language" = some (.rStr "en") ∧
      ∃ wm, (validate_and_set_defaults data).lookup "warnings" =
          some (ReqVal.rWarnings wm) ∧
        wm.lookup "language" = some [ReqWarn.unsupportedLanguage]) ∧
    ((data.lookup "cache" = none ∨ data.lookup "cache" = some .rNull) →
      (validate_and_set_defaults data).lookup "cache" = some (.rBool true) ∧
      ∀ wm, (validate_and_set_defaults data).lookup "warnings" =
          some (ReqVal.rWarnings wm) → wm.lookup "cache" = none) := by
  obtain ⟨hm, hl, hc, -, hw⟩ := vasd_lookups data
  refine ⟨?_, ?_, ?_, ?_, ?_⟩
  · have hidem : ((data.filter fun kv : String × ReqVal => kv.1 ≠ "warnings").filter
        fun kv : String × ReqVal => kv.1 ≠ "warnings") =
        data.filter fun kv : String × ReqVal => kv.1 ≠ "warnings" := by
      rw [List.filter_filter]
      simp
    simp only [validate_and_set_defaults]
    rw [hidem]
  · intro w hww
    rw [hw] at hww
    by_cases hmB : nameCheckFails supportedModels (data.lookup "model") = true
    · by_cases hlB : nameCheckFails supportedLanguages (data.lookup "language") = true
      · rw [if_pos hmB, if_pos hlB, if_neg (by decide)] at hww
        exact ⟨_, (Option.some.inj hww).symm, by decide, by decide⟩
      · rw [if_pos hmB, if_neg hlB, if_neg (by decide)] at hww
        exact ⟨_, (Option.some.inj hww).symm, by decide, by decide⟩
    · by_cases hlB : nameCheckFails supportedLanguages (data.lookup "language") = true
      · rw [if_neg hmB, if_pos hlB, if_neg (by decide)] at hww
        exact ⟨_, (Option.some.inj hww).symm, by decide, by decide⟩
      · rw [if_neg hmB, if_neg hlB, if_pos (by decide)] at hww
        exact absurd hww (by simp)
  · intro h
    refine ⟨by rw [hm, if_pos h], ?_⟩
    by_cases hlB : nameCheckFails supportedLanguages (data.lookup "language") = true
    · refine ⟨[("model", [ReqWarn.unsupportedModel]),
        ("language", [ReqWarn.unsupportedLanguage])], ?_, by decide⟩
      rw [hw, if_pos h, if_pos hlB, if_neg (by decide)]
      rfl
    · refine ⟨[("model", [ReqWarn.unsupportedModel])], ?_, by decide⟩
      rw [hw, if_pos h, if_neg hlB, if_neg (by decide)]
      rfl
  · intro h
    refine ⟨by rw [hl, if_pos h], ?_⟩
    by_cases hmB : nameCheckFails supportedModels (data.lookup "model") = true
    · refine ⟨[("model", [ReqWarn.unsupportedModel]),
        ("language", [ReqWarn.unsupportedLanguage])], ?_, by decide⟩
      rw [hw, if_pos hmB, if_pos h, if_neg (by decide)]
      rfl
    · refine ⟨[("language", [ReqWarn.unsupportedLanguage])], ?_, by decide⟩
      rw [hw, if_pos h, if_neg hmB, if_neg (by decide)]
      rfl
  · intro h
    have hcB : absentOrNull (data.lookup "cache") = true := by
      rcases h with h | h <;> rw [h] <;> rfl
    refine ⟨by rw [hc, if_pos hcB], ?_⟩
    intro wmx hww
    rw [hw] at hww
    by_cases hmB : nameCheckFails supportedModels (data.lookup "model") = true
    · by_cases hlB : nameCheckFails supportedLanguages (data.lookup "language") = true
      · rw [if_pos hmB, if_pos hlB, if_neg (by decide)] at hww
        obtain rfl : wmx = _ := (ReqVal.rWarnings.inj (Option.some.inj hww)).symm
        decide
      · rw [if_pos hmB, if_neg hlB, if_neg (by decide)] at hww
        obtain rfl : wmx = _ := (ReqVal.rWarnings.inj (Option.some.inj hww)).symm
        decide
    · by_cases hlB : nameCheckFails supportedLanguages (data.lookup "language") = true
      · rw [if_neg hmB, if_pos hlB, if_neg (by decide)] at hww
        obtain rfl : wmx = _ := (ReqVal.rWarnings.inj (Option.some.inj hww)).symm
        decide
      · rw [if_neg hmB, if_neg hlB, if_pos (by decide)] at hww
        simp at hww

/-- Witness for C10 at `exReq`: the unsupported model is defaulted, the
missing cache defaults to `true`, and the client-supplied `warnings` entry is
ignored. -/
theorem claim_C10_witness :
    (validate_and_set_defaults exReq).lookup "model" =
      some (ReqVal.rStr "t5-large") ∧
    (validate_and_set_defaults exReq).lookup "cache" =
      some (ReqVal.rBool true) ∧
    validate_and_set_defaults exReq =
      validate_and_set_defaults (exReq.filter fun kv => kv.1 ≠ "warnings") :=
  ⟨((claim_C10 exReq).2.2.1 (by decide)).1,
   ((claim_C10 exReq).2.2.2.2 (Or.inl (by decide))).1,
   (claim_C10 exReq).1⟩

/-! ### C1: sticky cache monotonicity -/

theorem cascade_bindings_sub (db : DB) (srcId : String) :
    ∀ b' ∈ (deleteSourceCascade db srcId).bindings, b' ∈ db.bindings := by
  intro b' h
  exact List.mem_of_mem_filter h

theorem dsos_bindings_sub (db : DB) (sid : String) :
    ∀ b' ∈ (deleteSourceOfSummary db sid).bindings, b' ∈ db.bindings := by
  intro b' h
  unfold deleteSourceOfSummary at h
  split at h
  · exact h
  · exact cascade_bindings_sub db _ b' h

theorem delete_if_not_cache_bindings_sub (db : DB) (i : String) :
    ∀ b' ∈ (delete_if_not_cache db i).bindings, b' ∈ db.bindings := by
  intro b' h
  simp only [delete_if_not_cache] at h
  split at h
  · exact h
  next b heq =>
    split at h
    · exact h
    · split at h
      · exact List.mem_of_mem_filter (dsos_bindings_sub _ _ b' h)
      · split at h
        · split at h
          · exact List.mem_of_mem_filter (dsos_bindings_sub _ _ b' h)
          · exact List.mem_of_mem_filter h
        · exact List.mem_of_mem_filter h

theorem touchRow_idRaw (r : String) (now : Nat) (b : BindingRow) :
    (touchRow r now b).idRaw = b.idRaw := by
  unfold touchRow; split <;> rfl

theorem touchRow_cache (r : String) (now : Nat) (b : BindingRow) :
    (touchRow r now b).cache = b.cache := by
  unfold touchRow; split <;> rfl

theorem touchRow_idPre (r : String) (now : Nat) (b : BindingRow) :
    (touchRow r now b).idPre = b.idPre := by
  unfold touchRow; split <;> rfl

theorem cacheTrueRow_idRaw (i : String) (pres : List String) (now : Nat)
    (b : BindingRow) : (cacheTrueRow i pres now b).idRaw = b.idRaw := by
  unfold cacheTrueRow; split <;> rfl

theorem cacheTrueRow_cache_mono (i : String) (pres : List String) (now : Nat)
    (b : BindingRow) (h : b.cache = true) :
    (cacheTrueRow i pres now b).cache = true := by
  unfold cacheTrueRow
  simp [h]

theorem cacheTrueRow_cache_self (i : String) (pres : List String) (now : Nat)
    (b : BindingRow) (h : (b.idRaw == i) = true) :
    (cacheTrueRow i pres now b).cache = true := by
  unfold cacheTrueRow
  cases hc : b.cache <;> simp [hc, h]

theorem cacheTrueRow_cache_presMem (i : String) (pres : List String) (now : Nat)
    (b : BindingRow) (h : pres.contains b.idRaw = true) :
    (cacheTrueRow i pres now b).cache = true := by
  have hm : b.idRaw ∈ pres := List.elem_iff.1 h
  unfold cacheTrueRow
  cases hc : b.cache <;> simp [hc, hm]

theorem repointRow_idRaw (raw p : String) (now : Nat) (x : BindingRow) :
    (repointRow raw p now x).idRaw = x.idRaw := by
  unfold repointRow; split <;> rfl

theorem repointRow_cache (raw p : String) (now : Nat) (x : BindingRow) :
    (repointRow raw p now x).cache = x.cache := by
  unfold repointRow; split <;> rfl

theorem orCacheRow_idRaw (p : String) (c : Bool) (now : Nat) (x : BindingRow) :
    (orCacheRow p c now x).idRaw = x.idRaw := by
  unfold orCacheRow; split <;> rfl

theorem orCacheRow_cache_mono (p : String) (c : Bool) (now : Nat)
    (x : BindingRow) (h : x.cache = true) : (orCacheRow p c now x).cache = true := by
  unfold orCacheRow
  simp [h]

theorem cacheOp_step (op : CacheOp) (db : DB) (r : String)
    (h : ∀ b ∈ db.bindings, b.idRaw = r → b.cache = true) :
    ∀ b' ∈ (applyCacheOp op db).bindings, b'.idRaw = r → b'.cache = true := by
  cases op with
  | cacheTrue i n =>
    intro b' hb' hr
    obtain ⟨b, hb, rfl⟩ := List.mem_map.1 hb'
    have hbid : b.idRaw = r := by rw [← cacheTrueRow_idRaw i (presOf db i) n b]; exact hr
    exact cacheTrueRow_cache_mono _ _ _ _ (h b hb hbid)
  | optOut i =>
    intro b' hb' hr
    exact h b' (delete_if_not_cache_bindings_sub db i b' hb') hr
  | rebindPre raw p n =>
    intro b' hb' hr
    have hb3 : b' ∈ (update_preprocessed_id db raw p n).bindings := hb'
    clear hb'
    simp only [update_preprocessed_id] at hb3
    split at hb3
    · exact h b' hb3 hr
    next b heq =>
      have hb2 := dsos_bindings_sub _ _ b' hb3
      obtain ⟨b1, hb1, rfl⟩ := List.mem_map.1 hb2
      obtain ⟨b0, hb0, rfl⟩ := List.mem_map.1 hb1
      have hid : b0.idRaw = r := by
        rw [← repointRow_idRaw raw p n b0, ← orCacheRow_idRaw p b.cache n]
        exact hr
      exact orCacheRow_cache_mono _ _ _ _
        ((repointRow_cache raw p n b0).trans (h b0 hb0 hid))

/-- C1: across any sequence of cache-affecting operations (cache-true
requests, opt-outs, rebinds), a binding's cache flag never transitions from
true to false — if every binding for a raw id has `cache = true` beforehand,
every surviving binding for that raw id still has `cache = true` afterwards;
and immediately after `update_cache_true id`, every binding for `id` and
every binding whose raw id equals the preprocessed id that `id` is bound to
(the canonical identifier's self-binding) have `cache = true`. -/
theorem claim_C1 :
    (∀ (ops : List CacheOp) (db : DB) (r : String),
      (∀ b ∈ db.bindings, b.idRaw = r → b.cache = true) →
      ∀ b' ∈ (applyCacheOps ops db).bindings, b'.idRaw = r → b'.cache = true) ∧
    (∀ (db : DB) (id_ : String) (now : Nat),
      (∀ b' ∈ (update_cache_true db id_ now).bindings,
        b'.idRaw = id_ → b'.cache = true) ∧
      (∀ b ∈ db.bindings, b.idRaw = id_ →
        ∀ b' ∈ (update_cache_true db id_ now).bindings,
          b'.idRaw = b.idPre → b'.cache = true)) := by
  constructor
  · intro ops
    induction ops with
    | nil => intro db r h; exact h
    | cons op rest ih =>
      intro db r h
      exact ih (applyCacheOp op db) r (cacheOp_step op db r h)
  · intro db id_ now
    constructor
    · intro b' hb' hr
      obtain ⟨b, hb, rfl⟩ := List.mem_map.1 hb'
      have hbid : b.idRaw = id_ := by
        rw [← cacheTrueRow_idRaw id_ (presOf db id_) now b]; exact hr
      exact cacheTrueRow_cache_self _ _ _ _ (beq_iff_eq.2 hbid)
    · intro b hb hbid b' hb' hr
      obtain ⟨x, hx, rfl⟩ := List.mem_map.1 hb'
      have hxid : x.idRaw = b.idPre := by
        rw [← cacheTrueRow_idRaw id_ (presOf db id_) now x]; exact hr
      have hmem : x.idRaw ∈ presOf db id_ := by
        rw [hxid]
        exact List.mem_map_of_mem _ (List.mem_filter.2 ⟨hb, beq_iff_eq.2 hbid⟩)
      exact cacheTrueRow_cache_presMem _ _ _ _ (List.elem_iff.2 hmem)

/-- Witness for C1 at `exDB1`: after a cache-true request for "a1" and an
opt-out for "b1", every surviving binding for "a1" still has the cache flag,
and after `update_cache_true "a1"` the canonical self-binding "p1" has
`cache = true`. -/
theorem claim_C1_witness :
    (∀ b' ∈ (applyCacheOps [CacheOp.cacheTrue "a1" 5, CacheOp.optOut "b1"]
        exDB1).bindings, b'.idRaw = "a1" → b'.cache = true) ∧
    (∀ b' ∈ (update_cache_true exDB1 "a1" 7).bindings,
      b'.idRaw = "p1" → b'.cache = true) :=
  ⟨claim_C1.1 [CacheOp.cacheTrue "a1" 5, CacheOp.optOut "b1"] exDB1 "a1" (by decide),
   fun b' hb' hr =>
     (claim_C1.2 exDB1 "a1" 7).2 ⟨"a1", "p1", true, 0⟩ (by decide) (by decide)
       b' hb' hr⟩

/-! ### C9: failure sentinels instead of exceptions -/

theorem touchBinding_no_match (db : DB) (id_ : String) (now : Nat)
    (h : findBinding db id_ = none) : touchBinding db id_ now = db := by
  unfold touchBinding
  have hall : ∀ b ∈ db.bindings, ¬((fun b : BindingRow => b.idRaw == id_) b = true) :=
    List.find?_eq_none.1 h
  have hmap : db.bindings.map (touchRow id_ now) = db.bindings := by
    have := List.map_congr_left (l := db.bindings) (f := touchRow id_ now) (g := id)
      (fun b hb => by
        have hx : (b.idRaw == id_) = false := by
          cases hx : (b.idRaw == id_)
          · rfl
          · exact absurd hx (hall b hb)
        unfold touchRow
        rw [hx]
        rfl)
    rw [this, List.map_id]
  rw [hmap]

theorem get_summary_no_binding (db : DB) (id_ : String) (now : Nat)
    (h : findBinding db id_ = none) : get_summary db id_ now = (db, none) := by
  simp only [get_summary]
  rw [touchBinding_no_match db id_ now h, h]

/-- C9: a DAO method whose connection attempt fails raises inside its `try`
(`runDaoAttempt` errors), and the method as observed by its caller returns
its not-found/failure sentinel with the store unchanged instead of raising —
for every operation of `SummaryDAOPostgresql`; moreover `get_summary` returns
the store unchanged and `None` also when no binding exists for the id. -/
theorem claim_C9 :
    (∀ (op : DaoOp) (db : DB) (now : Nat),
      runDaoAttempt none op db now = .error .pyErr ∧
      runDao none op db now = (db, failureSentinel op) ∧
      (failureSentinel op).isFailure = true) ∧
    (∀ (db : DB) (id_ : String) (now : Nat),
      findBinding db id_ = none →
        runDao (some ()) (.opGetSummary id_) db now = (db, .rSummary none)) := by
  constructor
  · intro op db now
    refine ⟨rfl, rfl, ?_⟩
    cases op <;> rfl
  · intro db id_ now h
    simp only [runDao, runDaoAttempt]
    rw [get_summary_no_binding db id_ now h]

/-- Witness for C9: calls with a failed connection leave `exDB9` unchanged
and report the failure sentinel — exercised for a mutator, for an insert,
for a delete and for the read-only source check — and `get_summary` on an
unknown id returns `None` with the store unchanged. -/
theorem claim_C9_witness :
    runDao none (.opUpdateCacheTrue "x") exDB9 3 = (exDB9, .rUnit) ∧
    runDao none (.opInsertSummary "i" "s" none "m" []
      SummaryStatus.preprocessing 0 none "en" true) exDB9 3 = (exDB9, .rUnit) ∧
    runDao none (.opDeleteSummary "y" true) exDB9 3 = (exDB9, .rUnit) ∧
    runDao none (.opSourceExists "s") exDB9 3 = (exDB9, .rBool none) ∧
    runDao (some ()) (.opGetSummary "zz") exDB9 3 = (exDB9, .rSummary none) :=
  ⟨(claim_C9.1 (.opUpdateCacheTrue "x") exDB9 3).2.1,
   (claim_C9.1 (.opInsertSummary "i" "s" none "m" []
      SummaryStatus.preprocessing 0 none "en" true) exDB9 3).2.1,
   (claim_C9.1 (.opDeleteSummary "y" true) exDB9 3).2.1,
   (claim_C9.1 (.opSourceExists "s") exDB9 3).2.1,
   claim_C9.2 exDB9 "zz" 3 (by decide)⟩

/-! ### C8: the fetch-time opt-out path -/

theorem eq_of_key_nodup {α : Type} (key : α → String) {l : List α}
    (h : (l.map key).Nodup) {a b : α} (ha : a ∈ l) (hb : b ∈ l)
    (hk : key a = key b) : a = b := by
  induction l with
  | nil => cases ha
  | cons x t ih =>
    rw [List.map_cons, List.nodup_cons] at h
    cases ha with
    | head =>
      cases hb with
      | head => rfl
      | tail _ hbt =>
        exact absurd (hk ▸ List.mem_map_of_mem key hbt) h.1
    | tail _ hat =>
      cases hb with
      | head =>
        exact absurd (hk ▸ List.mem_map_of_mem key hat) h.1
      | tail _ hbt => exact ih h.2 hat hbt

theorem findSummary_key (db : DB) (sid : String) (s : SummaryRow)
    (hs : findSummary db sid = some s) : s.summaryId = sid := by
  have h := List.find?_some hs
  exact beq_iff_eq.1 h

/-- In a well-formed store, after deleting the source of the summary `sid`,
no summary row with id `sid` and no source row with the summary's old source
id remain. -/
theorem dsos_deletes (db : DB) (sid : String) (s : SummaryRow)
    (hWF : db.WF) (hs : findSummary db sid = some s) :
    findSummary (deleteSourceOfSummary db sid) sid = none ∧
    findSource (deleteSourceOfSummary db sid) s.sourceId = none := by
  unfold deleteSourceOfSummary
  rw [hs]
  constructor
  · apply List.find?_eq_none.2
    intro x hx hbeq
    have hxmem : x ∈ db.summaries := List.mem_of_mem_filter hx
    have hxpred := List.of_mem_filter hx
    have hxs : x = s :=
      eq_of_key_nodup SummaryRow.summaryId hWF.2.1 hxmem
        (List.mem_of_find?_eq_some hs)
        ((beq_iff_eq.1 hbeq).trans (findSummary_key db sid s hs).symm)
    subst hxs
    simp at hxpred
  · apply List.find?_eq_none.2
    intro x hx hbeq
    have hxpred := List.of_mem_filter hx
    rw [hbeq] at hxpred
    simp at hxpred

theorem delete_if_not_cache_eq (db : DB) (id_ : String) (b : BindingRow)
    (hfb : findBinding db id_ = some b) (hc : b.cache = false) :
    delete_if_not_cache db id_ =
      (if selfOrUncachedSelf db id_ b
       then deleteSourceOfSummary (dropBinding db id_) b.idPre
       else dropBinding db id_) := by
  unfold delete_if_not_cache
  rw [hfb]
  show (if b.cache = true then db else _) = _
  rw [if_neg (by rw [hc]; exact Bool.false_ne_true)]
  unfold selfOrUncachedSelf
  by_cases hself : (id_ == b.idPre) = true
  · simp [hself]
  · simp only [Bool.not_eq_true] at hself
    cases hsb : findBinding (dropBinding db id_) b.idPre with
    | none => simp [hself, hsb]
    | some sb => cases hsbc : sb.cache <;> simp [hself, hsb, hsbc]

/-- Counterexample to C8 as stated: in `exDB8` another remaining binding
("b8") to the summary has `cache = true`, yet `delete_if_not_cache "a8"`
deletes the summary (and cascades away "b8" too) — the code consults only the
canonical identifier\x27s self-binding, not all other remaining bindings. -/
theorem claim_C8_counterexample :
    (∃ b ∈ exDB8.bindings, b.idRaw ≠ "a8" ∧ b.idPre = "p8" ∧ b.cache = true) ∧
    findBinding exDB8 "a8" = some ⟨"a8", "p8", false, 0⟩ ∧
    findSummary (delete_if_not_cache exDB8 "a8") "p8" = none := by
  refine ⟨⟨⟨"b8", "p8", true, 0⟩, by decide, by decide, rfl, rfl⟩, by decide, by decide⟩

/-- C8 (amended): `delete_if_not_cache id` deletes the binding only when its
cache flag is false (with no binding, or a cache-true binding, the store is
unchanged); when the deleted binding was a self-binding it deletes the
summary and its source; otherwise it deletes the summary and its source
exactly when the canonical identifier\x27s self-binding exists among the
remaining bindings and has `cache = false` — other bindings\x27 flags are not
consulted — and when that self-binding is absent or has `cache = true`, only
the binding itself is removed. -/
theorem claim_C8 (db : DB) (id_ : String) (hWF : db.WF) :
    ((findBinding db id_).all (fun b => b.cache) = true →
      delete_if_not_cache db id_ = db) ∧
    (∀ b s, findBinding db id_ = some b → b.cache = false →
      findSummary db b.idPre = some s →
      findBinding (delete_if_not_cache db id_) id_ = none ∧
      (selfOrUncachedSelf db id_ b = true →
        findSummary (delete_if_not_cache db id_) b.idPre = none ∧
        findSource (delete_if_not_cache db id_) s.sourceId = none) ∧
      (selfOrUncachedSelf db id_ b = false →
        delete_if_not_cache db id_ = dropBinding db id_)) := by
  have hWF1 : (dropBinding db id_).WF := by
    refine ⟨hWF.1, hWF.2.1, ?_⟩
    have : ((dropBinding db id_).bindings.map BindingRow.idRaw).Sublist
        (db.bindings.map BindingRow.idRaw) :=
      (List.filter_sublist _).map BindingRow.idRaw
    exact this.nodup hWF.2.2
  constructor
  · intro hall
    unfold delete_if_not_cache
    split
    · rfl
    next b heq =>
      rw [heq] at hall
      have hc : b.cache = true := by simpa using hall
      rw [if_pos hc]
  · intro b s hfb hc hsum
    have hres := delete_if_not_cache_eq db id_ b hfb hc
    have hsum1 : findSummary (dropBinding db id_) b.idPre = some s := hsum
    refine ⟨?_, ?_, ?_⟩
    · rw [hres]
      split
      · apply List.find?_eq_none.2
        intro x hx
        have hx1 : x ∈ (dropBinding db id_).bindings := dsos_bindings_sub _ _ x hx
        have := List.of_mem_filter hx1
        simpa using this
      · apply List.find?_eq_none.2
        intro x hx
        have := List.of_mem_filter hx
        simpa using this
    · intro hcond
      rw [hres, if_pos hcond]
      exact dsos_deletes (dropBinding db id_) b.idPre s hWF1 hsum1
    · intro hcond
      rw [hres, if_neg (by rw [hcond]; exact Bool.false_ne_true)]

/-- Witness for C8 at concrete stores: a cache-true binding is not deleted,
and the opt-out of "a8" removes its binding and (the self-binding being
cache-false) the summary and source. -/
theorem claim_C8_witness :
    delete_if_not_cache exDB9 "p9" = exDB9 ∧
    findBinding (delete_if_not_cache exDB8 "a8") "a8" = none ∧
    findSummary (delete_if_not_cache exDB8 "a8") "p8" = none ∧
    findSource (delete_if_not_cache exDB8 "a8") "s8" = none :=
  ⟨(claim_C8 exDB9 "p9" (by decide)).1 (by decide),
   ((claim_C8 exDB8 "a8" (by decide)).2 ⟨"a8", "p8", false, 0⟩
     ⟨"p8", "s8", some "o", some 1, "t5-large", [],
      SummaryStatus.completed, 0, some 1, "en", 1, []⟩
     (by decide) (by decide) (by decide)).1,
   (((claim_C8 exDB8 "a8" (by decide)).2 ⟨"a8", "p8", false, 0⟩
     ⟨"p8", "s8", some "o", some 1, "t5-large", [],
      SummaryStatus.completed, 0, some 1, "en", 1, []⟩
     (by decide) (by decide) (by decide)).2.1 (by decide)).1,
   (((claim_C8 exDB8 "a8" (by decide)).2 ⟨"a8", "p8", false, 0⟩
     ⟨"p8", "s8", some "o", some 1, "t5-large", [],
      SummaryStatus.completed, 0, some 1, "en", 1, []⟩
     (by decide) (by decide) (by decide)).2.1 (by decide)).2⟩

/-! ### Generic find? toolkit for table reasoning -/

theorem find?_append_or {α : Type} (l1 l2 : List α) (p : α → Bool) :
    (l1 ++ l2).find? p = (l1.find? p).orElse fun _ => l2.find? p := by
  induction l1 with
  | nil => rfl
  | cons x t ih =>
    by_cases h : p x
    · simp [List.find?, h]
    · have h' : p x = false := by
        cases hx : p x
        · rfl
        · exact absurd hx h
      simp [List.find?, h', ih]

theorem find?_congr_mem {α : Type} {p q : α → Bool} {l : List α}
    (h : ∀ x ∈ l, p x = q x) : l.find? p = l.find? q := by
  induction l with
  | nil => rfl
  | cons x t ih =>
    have hx := h x (List.mem_cons_self x t)
    by_cases hp : p x
    · simp [List.find?, hp, hx ▸ hp]
    · have hp' : p x = false := by
        cases hv : p x
        · rfl
        · exact absurd hv hp
      have hq' : q x = false := hx ▸ hp'
      simp [List.find?, hp', hq']
      exact ih fun y hy => h y (List.mem_cons_of_mem x hy)

theorem find?_map_general {α : Type} (f : α → α) (l : List α) (p : α → Bool) :
    (l.map f).find? p = (l.find? fun x => p (f x)).map f := by
  induction l with
  | nil => rfl
  | cons x t ih =>
    by_cases h : p (f x)
    · simp [List.find?, h]
    · have h' : p (f x) = false := by
        cases hx : p (f x)
        · rfl
        · exact absurd hx h
      simp [List.find?, h', ih]

theorem find?_key_of_mem {α : Type} (key : α → String) {l : List α} {r : String}
    (h : (l.map key).Nodup) {b : α} (hb : b ∈ l) (hk : key b = r) :
    l.find? (fun x => key x == r) = some b := by
  induction l with
  | nil => cases hb
  | cons x t ih =>
    rw [List.map_cons, List.nodup_cons] at h
    cases hb with
    | head =>
      simp [List.find?, beq_iff_eq.2 hk]
    | tail _ hbt =>
      have hxr : (key x == r) = false := by
        cases hx : (key x == r)
        · rfl
        · exfalso
          apply h.1
          rw [beq_iff_eq.1 hx, ← hk]
          exact hk ▸ List.mem_map_of_mem key hbt
      simp [List.find?, hxr]
      exact ih h.2 hbt

theorem keys_map_eq {α : Type} (key : α → String) (f : α → α)
    (hk : ∀ x, key (f x) = key x) (l : List α) :
    (l.map f).map key = l.map key := by
  rw [List.map_map]
  exact List.map_congr_left fun a _ => hk a

/-! ### C2: the preprocessing-completion branch of the consumer loop -/

theorem findBinding_key (db : DB) (r : String) (b : BindingRow)
    (h : findBinding db r = some b) : b.idRaw = r := by
  have hx := List.find?_some h
  exact beq_iff_eq.1 hx

theorem findSource_key (db : DB) (sid : String) (s : SourceRow)
    (h : findSource db sid = some s) : s.sourceId = sid := by
  have hx := List.find?_some h
  exact beq_iff_eq.1 hx

theorem find?_idRaw_map (f : BindingRow → BindingRow)
    (hf : ∀ x, (f x).idRaw = x.idRaw) (l : List BindingRow) (r : String) :
    (l.map f).find? (fun x => x.idRaw == r) =
      (l.find? fun x => x.idRaw == r).map f := by
  rw [find?_map_general]
  rw [find?_congr_mem (fun x _ => by rw [hf x])]

theorem find?_summaryId_map (f : SummaryRow → SummaryRow)
    (hf : ∀ x, (f x).summaryId = x.summaryId) (l : List SummaryRow) (r : String) :
    (l.map f).find? (fun x => x.summaryId == r) =
      (l.find? fun x => x.summaryId == r).map f := by
  rw [find?_map_general]
  rw [find?_congr_mem (fun x _ => by rw [hf x])]

theorem incrRow_summaryId (pre : String) (x : SummaryRow) :
    (incrRow pre x).summaryId = x.summaryId := by
  unfold incrRow; split <;> rfl

theorem cascadeSummarySourceRow_summaryId (o n : String) (x : SummaryRow) :
    (cascadeSummarySourceRow o n x).summaryId = x.summaryId := by
  unfold cascadeSummarySourceRow; split <;> rfl

theorem cascadeBindingPreRow_idRaw (o n : String) (x : BindingRow) :
    (cascadeBindingPreRow o n x).idRaw = x.idRaw := by
  unfold cascadeBindingPreRow; split <;> rfl

/-- The completed-summary branch of the preprocessing event handling: when
the newly computed preprocessed identifier addresses (through its
self-binding) an existing summary in COMPLETED status, the handler repoints
the raw binding, produces no message, and increments the existing summary\x27s
request count. The side conditions make the normal store state explicit: the
raw binding and its in-flight summary exist, and the in-flight summary\x27s
source differs from the completed summary\x27s source (so the cascade that
deletes the old summary cannot reach the new one). -/
theorem c2_completed_branch (db : DB) (key textPre model : String)
    (params : Params) (now : Nat) (idPre : String) (bp bk : BindingRow)
    (sp so : SummaryRow) (srcp : SourceRow)
    (hid : idPre = get_unique_key textPre model params)
    (hWF : db.WF)
    (hbp : findBinding db idPre = some bp)
    (hbpSelf : bp.idPre = idPre)
    (hsp : findSummary db idPre = some sp)
    (hspc : sp.status = SummaryStatus.completed)
    (hsrcp : findSource db sp.sourceId = some srcp)
    (hbk : findBinding db key = some bk)
    (hkne : key ≠ idPre)
    (hso : findSummary db key = some so)
    (hneq : so.sourceId ≠ sp.sourceId) :
    ∃ db', handle_preprocessing db key textPre model params now = some (db', []) ∧
      findBinding db' key = some { bk with idPre := idPre, lastAccessed := now } ∧
      findSummary db' idPre = some { sp with requestCount := sp.requestCount + 1 } := by
  have hbpRaw : bp.idRaw = idPre := findBinding_key db idPre bp hbp
  have hbkRaw : bk.idRaw = key := findBinding_key db key bk hbk
  have hspKey : sp.summaryId = idPre := findSummary_key db idPre sp hsp
  set db1 : DB := touchBinding db idPre now with hdb1
  have hfb1 : ∀ r : String,
      findBinding db1 r = (findBinding db r).map (touchRow idPre now) := by
    intro r
    exact find?_idRaw_map _ (fun x => touchRow_idRaw idPre now x) db.bindings r
  have hbpT : touchRow idPre now bp = { bp with lastAccessed := now } := by
    unfold touchRow
    rw [if_pos (beq_iff_eq.2 hbpRaw)]
  have hbkT : touchRow idPre now bk = bk := by
    unfold touchRow
    rw [if_neg (fun hcc => hkne (hbkRaw.symm.trans (beq_iff_eq.1 hcc)))]
  have hfb1p : findBinding db1 idPre = some { bp with lastAccessed := now } := by
    rw [hfb1 idPre, hbp, Option.map_some', hbpT]
  have hfb1k : findBinding db1 key = some bk := by
    rw [hfb1 key, hbk, Option.map_some', hbkT]
  have hg1 : get_summary db idPre now = (db1, some (sp, srcp)) := by
    simp only [get_summary, ← hdb1, hfb1p]
    have h1 : findSummary db1 ({ bp with lastAccessed := now } : BindingRow).idPre =
        some sp := by
      show findSummary db bp.idPre = some sp
      rw [hbpSelf]; exact hsp
    simp only [h1]
    have h2 : findSource db1 sp.sourceId = some srcp := hsrcp
    simp only [h2]
  -- repoint stage
  have hrep : repointRow key idPre now bk =
      ({ bk with idPre := idPre, lastAccessed := now } : BindingRow) := by
    unfold repointRow
    rw [if_pos (beq_iff_eq.2 hbkRaw)]
  have horc : orCacheRow idPre bk.cache now
      ({ bk with idPre := idPre, lastAccessed := now } : BindingRow) =
      ({ bk with idPre := idPre, lastAccessed := now } : BindingRow) := by
    unfold orCacheRow
    rw [if_neg ?hng]
    case hng =>
      intro hcc
      rw [Bool.and_eq_true] at hcc
      exact hkne (hbkRaw.symm.trans (beq_iff_eq.1 hcc.1))
  set db2 : DB := { db1 with bindings :=
    ((db1.bindings.map (repointRow key idPre now)).map
      (orCacheRow idPre bk.cache now)) } with hdb2
  have hupd : update_preprocessed_id db1 key idPre now =
      deleteSourceOfSummary db2 key := by
    simp only [update_preprocessed_id, hfb1k, ← hdb2]
  have hfs2k : findSummary db2 key = some so := hso
  set db3 : DB := deleteSourceCascade db2 so.sourceId with hdb3
  have hdsos : deleteSourceOfSummary db2 key = db3 := by
    simp only [deleteSourceOfSummary, hfs2k, ← hdb3]
  -- the surviving repointed binding
  have hmem2 : ({ bk with idPre := idPre, lastAccessed := now } : BindingRow) ∈
      db2.bindings := by
    have h0 : bk ∈ db.bindings := List.mem_of_find?_eq_some hbk
    have h1 : bk ∈ db1.bindings := by
      have := List.mem_map_of_mem (touchRow idPre now) h0
      rwa [hbkT] at this
    have h2 := List.mem_map_of_mem (repointRow key idPre now) h1
    rw [hrep] at h2
    have h3 := List.mem_map_of_mem (orCacheRow idPre bk.cache now) h2
    rwa [horc] at h3
  have hkeysB2 : db2.bindings.map BindingRow.idRaw =
      db.bindings.map BindingRow.idRaw := by
    show (((db.bindings.map (touchRow idPre now)).map
        (repointRow key idPre now)).map (orCacheRow idPre bk.cache now)).map
        BindingRow.idRaw = db.bindings.map BindingRow.idRaw
    rw [keys_map_eq _ _ (fun x => orCacheRow_idRaw idPre bk.cache now x),
      keys_map_eq _ _ (fun x => repointRow_idRaw key idPre now x),
      keys_map_eq _ _ (fun x => touchRow_idRaw idPre now x)]
  have hpass : ((((db2.summaries.filter fun s => s.sourceId == so.sourceId).map
      SummaryRow.summaryId)).contains idPre) = false := by
    cases hcv : (((db2.summaries.filter fun s => s.sourceId == so.sourceId).map
        SummaryRow.summaryId)).contains idPre
    · rfl
    · exfalso
      have hmem := List.elem_iff.1 hcv
      obtain ⟨s', hs'f, hs'k⟩ := List.mem_map.1 hmem
      have hs'mem : s' ∈ db.summaries := List.mem_of_mem_filter hs'f
      have hs'pred := List.of_mem_filter hs'f
      have hs'sp : s' = sp :=
        eq_of_key_nodup SummaryRow.summaryId hWF.2.1 hs'mem
          (List.mem_of_find?_eq_some hsp) (hs'k.trans hspKey.symm)
      subst hs'sp
      exact hneq ((beq_iff_eq.1 hs'pred).symm)
  have hnodupB3 : (db3.bindings.map BindingRow.idRaw).Nodup := by
    have hsub : (db3.bindings.map BindingRow.idRaw).Sublist
        (db2.bindings.map BindingRow.idRaw) :=
      (List.filter_sublist _).map BindingRow.idRaw
    rw [hkeysB2] at hsub
    exact hsub.nodup hWF.2.2
  have hmem3 : ({ bk with idPre := idPre, lastAccessed := now } : BindingRow) ∈
      db3.bindings := by
    apply List.mem_filter.2
    refine ⟨hmem2, ?_⟩
    show (!((((db2.summaries.filter fun s => s.sourceId == so.sourceId).map
        SummaryRow.summaryId)).contains idPre)) = true
    rw [hpass]
    rfl
  have hfb3 : findBinding db3 key =
      some ({ bk with idPre := idPre, lastAccessed := now } : BindingRow) :=
    find?_key_of_mem BindingRow.idRaw hnodupB3 hmem3 hbkRaw
  have hmemSp3 : sp ∈ db3.summaries := by
    apply List.mem_filter.2
    refine ⟨List.mem_of_find?_eq_some hsp, ?_⟩
    show (!(sp.sourceId == so.sourceId)) = true
    rw [beq_false_of_ne (fun hcc => hneq hcc.symm)]
    rfl
  have hnodupS3 : (db3.summaries.map SummaryRow.summaryId).Nodup := by
    have hsub : (db3.summaries.map SummaryRow.summaryId).Sublist
        (db.summaries.map SummaryRow.summaryId) :=
      (List.filter_sublist _).map SummaryRow.summaryId
    exact hsub.nodup hWF.2.1
  have hsp3 : findSummary db3 idPre = some sp :=
    find?_key_of_mem SummaryRow.summaryId hnodupS3 hmemSp3 hspKey
  set db4 : DB := { db3 with summaries := db3.summaries.map (incrRow idPre) }
    with hdb4
  have hinc : increment_summary_count db3 key =
      (db4, some (sp.requestCount + 1)) := by
    have hsp3x : findSummary db3
        ({ bk with idPre := idPre, lastAccessed := now } : BindingRow).idPre =
        some sp := hsp3
    simp only [increment_summary_count, hfb3, hsp3x, ← hdb4]
  refine ⟨db4, ?_, ?_, ?_⟩
  · simp only [handle_preprocessing, ← hid, hg1, hspc, beq_self_eq_true, if_true]
    rw [show (key == idPre) = false from beq_false_of_ne hkne]
    simp only [Bool.false_eq_true, if_false]
    rw [hupd, hdsos, hinc]
  · exact hfb3
  · show findSummary db4 idPre = _
    have : findSummary db4 idPre = (findSummary db3 idPre).map (incrRow idPre) := by
      exact find?_summaryId_map _ (fun x => incrRow_summaryId idPre x)
        db3.summaries idPre
    rw [this, hsp3, Option.map_some']
    unfold incrRow
    rw [if_pos (beq_iff_eq.2 hspKey)]

/-- Binding an `Except.ok` value just applies the continuation. -/
theorem exceptBindOk {e a b : Type} (x : a) (f : a → Except e b) :
    (Except.ok x : Except e a) >>= f = f x := rfl

/-- The migration branch of the preprocessing event handling: when no
summary and no binding exist at the newly computed preprocessed identifier
(and no stored source already carries the preprocessed text\x27s hash, so the
rename cannot collide), the handler migrates the in-flight summary and its
source to the new identifier, inserts the canonical self-binding, repoints
the raw binding through the cascade, produces exactly one message to the
text-encoding topic, and increments the migrated summary\x27s request count. -/
theorem c2_migrate_branch (db : DB) (key textPre model : String)
    (params : Params) (now : Nat) (idPre : String) (bk : BindingRow)
    (so : SummaryRow) (src : SourceRow)
    (hid : idPre = get_unique_key textPre model params)
    (hWF : db.WF)
    (hnb : findBinding db idPre = none)
    (hnosum : findSummary db idPre = none)
    (hnosrc : findSource db (dao_get_unique_key textPre) = none)
    (hbk : findBinding db key = some bk)
    (hbkSelf : bk.idPre = key)
    (hso : findSummary db key = some so)
    (hsrc : findSource db so.sourceId = some src)
    (hhash : src.sourceId = dao_get_unique_key src.content) :
    ∃ db', handle_preprocessing db key textPre model params now =
        some (db', [⟨textEncodingTopic, key, textPre, model, params⟩]) ∧
      findSummary db' idPre = some { so with
        summaryId := idPre, sourceId := dao_get_unique_key textPre,
        requestCount := so.requestCount + 1 } ∧
      findBinding db' key = some { bk with idPre := idPre, lastAccessed := now } ∧
      findBinding db' idPre = some ⟨idPre, idPre, bk.cache, now⟩ ∧
      findSource db' (dao_get_unique_key textPre) =
        some ⟨dao_get_unique_key textPre, textPre, textPre.length⟩ := by
  have hbkRaw : bk.idRaw = key := findBinding_key db key bk hbk
  have hsoKey : so.summaryId = key := findSummary_key db key so hso
  have hsrcKey : src.sourceId = so.sourceId := findSource_key db so.sourceId src hsrc
  have hkne : key ≠ idPre := by
    intro h
    rw [h, hnb] at hbk
    cases hbk
  set nsid : String := dao_get_unique_key textPre with hnsid
  have hosid : dao_get_unique_key src.content = so.sourceId :=
    hhash.symm.trans hsrcKey
  have hg1 : get_summary db idPre now = (db, none) :=
    get_summary_no_binding db idPre now hnb
  -- stage 2: get_summary for the raw key
  set db2 : DB := touchBinding db key now with hdb2
  have hbkT : touchRow key now bk = { bk with lastAccessed := now } := by
    unfold touchRow
    rw [if_pos (beq_iff_eq.2 hbkRaw)]
  have hfb2k : findBinding db2 key = some ({ bk with lastAccessed := now }) := by
    have h0 : findBinding db2 key = (findBinding db key).map (touchRow key now) :=
      find?_idRaw_map _ (fun x => touchRow_idRaw key now x) db.bindings key
    rw [h0, hbk, Option.map_some', hbkT]
  have hg2 : get_summary db key now = (db2, some (so, src)) := by
    simp only [get_summary, ← hdb2, hfb2k]
    have h1 : findSummary db2
        ({ bk with lastAccessed := now } : BindingRow).idPre = some so := by
      show findSummary db bk.idPre = some so
      rw [hbkSelf]; exact hso
    simp only [h1]
    have h2 : findSource db2 so.sourceId = some src := hsrc
    simp only [h2]
  -- stage 3: update_source — statement 1
  set db2a : DB := { db2 with
    sources := db2.sources.map (renameSourceRow so.sourceId nsid textPre)
    summaries := db2.summaries.map (cascadeSummarySourceRow so.sourceId nsid) }
    with hdb2a
  have hstmt1 : sqlUpdateSource db2 (dao_get_unique_key src.content) nsid textPre =
      .ok db2a := by
    rw [hosid]
    have hfsrc2 : findSource db2 so.sourceId = some src := hsrc
    simp only [sqlUpdateSource, hfsrc2, ← hdb2a]
    rw [if_neg ?hng]
    case hng =>
      intro hcc
      have : findSource db2 nsid = none := hnosrc
      rw [this] at hcc
      exact absurd hcc.2 (by simp)
  -- statement 2
  set db2b : DB := { db2a with
    summaries := db2a.summaries.map (renameSummaryRow key idPre)
    bindings := db2a.bindings.map (cascadeBindingPreRow key idPre) } with hdb2b
  have hfsum2a : findSummary db2a key =
      some ({ so with sourceId := nsid }) := by
    show (db2.summaries.map (cascadeSummarySourceRow so.sourceId nsid)).find?
      (fun x => x.summaryId == key) = _
    rw [find?_summaryId_map _
        (fun x => cascadeSummarySourceRow_summaryId so.sourceId nsid x)
        db2.summaries key]
    have h0 : db2.summaries.find? (fun x => x.summaryId == key) = some so := hso
    rw [h0, Option.map_some']
    unfold cascadeSummarySourceRow
    rw [if_pos (beq_iff_eq.2 rfl)]
  have hfsum2aP : findSummary db2a idPre = none := by
    show (db2.summaries.map (cascadeSummarySourceRow so.sourceId nsid)).find?
      (fun x => x.summaryId == idPre) = _
    rw [find?_summaryId_map _
        (fun x => cascadeSummarySourceRow_summaryId so.sourceId nsid x)
        db2.summaries idPre]
    have h0 : db2.summaries.find? (fun x => x.summaryId == idPre) = none := hnosum
    rw [h0]
    rfl
  have hstmt2 : sqlUpdateSummaryId db2a key idPre = .ok db2b := by
    simp only [sqlUpdateSummaryId, hfsum2a, ← hdb2b]
    rw [if_neg ?hng]
    case hng =>
      intro hcc
      rw [hfsum2aP] at hcc
      exact absurd hcc.2 (by simp)
  -- statement 3
  have hfb2bk : findBinding db2b key =
      some ({ bk with idPre := idPre, lastAccessed := now }) := by
    have h0 : findBinding db2b key =
        (findBinding db2 key).map (cascadeBindingPreRow key idPre) :=
      find?_idRaw_map _ (fun x => cascadeBindingPreRow_idRaw key idPre x)
        db2.bindings key
    rw [h0, hfb2k, Option.map_some']
    unfold cascadeBindingPreRow
    rw [if_pos ?hp]
    case hp =>
      show (({ bk with lastAccessed := now } : BindingRow).idPre == key) = true
      exact beq_iff_eq.2 hbkSelf
  have hfb2bP : findBinding db2b idPre = none := by
    have h0 : findBinding db2 idPre = (findBinding db idPre).map (touchRow key now) :=
      find?_idRaw_map _ (fun x => touchRow_idRaw key now x) db.bindings idPre
    have h1 : findBinding db2b idPre =
        (findBinding db2 idPre).map (cascadeBindingPreRow key idPre) :=
      find?_idRaw_map _ (fun x => cascadeBindingPreRow_idRaw key idPre x)
        db2.bindings idPre
    rw [h1, h0, hnb]
    rfl
  set db3 : DB := { db2b with bindings :=
    db2b.bindings ++ [⟨idPre, idPre, bk.cache, now⟩] } with hdb3
  have hstmt3 : sqlInsertPreprocessedId db2b idPre now key = .ok db3 := by
    simp only [sqlInsertPreprocessedId, hfb2bk]
    rw [if_neg ?hng]
    case hng =>
      rw [hfb2bP]
      simp
  have htx : updateSourceTx db2 src.content textPre key idPre now =
      Except.ok db3 := by
    unfold updateSourceTx
    rw [← hnsid, hstmt1]
    rw [exceptBindOk]
    rw [hstmt2]
    rw [exceptBindOk]
    exact hstmt3
  have hupdsrc : update_source db2 src.content textPre key idPre now = db3 := by
    unfold update_source
    rw [htx]
  -- stage 4: increment_summary_count through the raw key
  have hfb3k : findBinding db3 key =
      some ({ bk with idPre := idPre, lastAccessed := now }) := by
    show (db2b.bindings ++ [(⟨idPre, idPre, bk.cache, now⟩ : BindingRow)]).find?
      (fun x => x.idRaw == key) = _
    rw [find?_append_or]
    have h1 : db2b.bindings.find? (fun x => x.idRaw == key) =
        some ({ bk with idPre := idPre, lastAccessed := now }) := hfb2bk
    rw [h1]
    rfl
  have hfs3P : findSummary db3 idPre =
      some ({ so with summaryId := idPre, sourceId := nsid }) := by
    show (db2a.summaries.map (renameSummaryRow key idPre)).find?
      (fun x => x.summaryId == idPre) = _
    rw [find?_map_general]
    have hcong : ∀ x ∈ db2a.summaries,
        ((fun x => (renameSummaryRow key idPre x).summaryId == idPre) x) =
        ((fun x => x.summaryId == key) x) := by
      intro x hx
      show ((renameSummaryRow key idPre x).summaryId == idPre) =
        (x.summaryId == key)
      by_cases hxk : x.summaryId = key
      · unfold renameSummaryRow
        rw [if_pos (beq_iff_eq.2 hxk)]
        have h1 : (({ x with summaryId := idPre } : SummaryRow).summaryId ==
            idPre) = true := beq_iff_eq.2 rfl
        rw [h1, beq_iff_eq.2 hxk]
      · unfold renameSummaryRow
        rw [if_neg (fun hcc => hxk (beq_iff_eq.1 hcc))]
        have hx2 : x ∈ db.summaries.map
            (cascadeSummarySourceRow so.sourceId nsid) := hx
        obtain ⟨y, hy, hyx⟩ := List.mem_map.1 hx2
        have hyk : y.summaryId = x.summaryId := by
          rw [← hyx]
          exact (cascadeSummarySourceRow_summaryId so.sourceId nsid y).symm
        have hallS : ∀ z ∈ db.summaries,
            ¬((fun s : SummaryRow => s.summaryId == idPre) z = true) :=
          List.find?_eq_none.1 hnosum
        have hxne : x.summaryId ≠ idPre := by
          intro hcc
          exact hallS y hy (beq_iff_eq.2 (hyk.trans hcc))
        rw [beq_false_of_ne hxne, beq_false_of_ne hxk]
    rw [find?_congr_mem hcong]
    have h2 : db2a.summaries.find? (fun x => x.summaryId == key) =
        some ({ so with sourceId := nsid }) := hfsum2a
    rw [h2, Option.map_some']
    unfold renameSummaryRow
    rw [if_pos ?hp2]
    case hp2 =>
      show (({ so with sourceId := nsid } : SummaryRow).summaryId == key) = true
      exact beq_iff_eq.2 hsoKey
  set db4 : DB := { db3 with summaries := db3.summaries.map (incrRow idPre) }
    with hdb4
  have hinc : increment_summary_count db3 key =
      (db4, some (so.requestCount + 1)) := by
    have hfs3x : findSummary db3
        ({ bk with idPre := idPre, lastAccessed := now } : BindingRow).idPre =
        some ({ so with summaryId := idPre, sourceId := nsid }) := hfs3P
    simp only [increment_summary_count, hfb3k, hfs3x, ← hdb4]
  refine ⟨db4, ?_, ?_, ?_, ?_, ?_⟩
  · simp only [handle_preprocessing, ← hid, hg1, Bool.false_eq_true, if_false, hg2]
    rw [hupdsrc, hinc]
  · have h1 : findSummary db4 idPre = (findSummary db3 idPre).map (incrRow idPre) :=
      find?_summaryId_map _ (fun x => incrRow_summaryId idPre x) db3.summaries idPre
    rw [h1, hfs3P, Option.map_some']
    unfold incrRow
    rw [if_pos ?hp3]
    case hp3 =>
      show (({ so with summaryId := idPre, sourceId := nsid } : SummaryRow).summaryId
        == idPre) = true
      exact beq_iff_eq.2 rfl
  · exact hfb3k
  · show (db2b.bindings ++ [(⟨idPre, idPre, bk.cache, now⟩ : BindingRow)]).find?
      (fun x => x.idRaw == idPre) = _
    rw [find?_append_or]
    have h1 : db2b.bindings.find? (fun x => x.idRaw == idPre) = none := hfb2bP
    rw [h1]
    show ([(⟨idPre, idPre, bk.cache, now⟩ : BindingRow)].find?
      (fun x => x.idRaw == idPre)) = _
    have h2 : ((⟨idPre, idPre, bk.cache, now⟩ : BindingRow).idRaw == idPre) =
      true := beq_iff_eq.2 rfl
    simp only [List.find?, h2]
  · show (db.sources.map (renameSourceRow so.sourceId nsid textPre)).find?
      (fun x => x.sourceId == nsid) = _
    rw [find?_map_general]
    have hcong : ∀ x ∈ db.sources,
        ((fun x => (renameSourceRow so.sourceId nsid textPre x).sourceId == nsid) x)
        = ((fun x => x.sourceId == so.sourceId) x) := by
      intro x hx
      show ((renameSourceRow so.sourceId nsid textPre x).sourceId == nsid) =
        (x.sourceId == so.sourceId)
      by_cases hxs : x.sourceId = so.sourceId
      · unfold renameSourceRow
        rw [if_pos (beq_iff_eq.2 hxs)]
        have h1 : ((⟨nsid, textPre, textPre.length⟩ : SourceRow).sourceId == nsid)
          = true := beq_iff_eq.2 rfl
        rw [h1, beq_iff_eq.2 hxs]
      · unfold renameSourceRow
        rw [if_neg (fun hcc => hxs (beq_iff_eq.1 hcc))]
        have hxn : x.sourceId ≠ nsid := by
          intro hcc
          exact (List.find?_eq_none.1 hnosrc) x hx (beq_iff_eq.2 hcc)
        rw [beq_false_of_ne hxn, beq_false_of_ne hxs]
    rw [find?_congr_mem hcong]
    have h2 : db.sources.find? (fun x => x.sourceId == so.sourceId) = some src :=
      hsrc
    rw [h2, Option.map_some']
    unfold renameSourceRow
    rw [if_pos (beq_iff_eq.2 hsrcKey)]

set_option maxRecDepth 100000 in
/-- C2 counterexample: the rebind race. No completed summary exists at the
newly computed identifier (the one sitting there is still in flight), so the
claim\x27s unconditioned migrate branch applies and promises migration to the
new identifier; the code instead still produces one message to the
text-encoding topic while the migration silently rolls back — the raw
summary keeps its old identifier `"kb"` and the raw binding still points at
`"kb"`, because `update_source`\x27s rename collides with the concurrent
row and the whole transaction is rolled back. -/
theorem claim_C2_counterexample :
    (handle_preprocessing dbRace "kb" "p" "m" [] 5).map
      (fun r => (r.2.map ProducedMsg.topic,
        (findBinding r.1 "kb").map BindingRow.idPre,
        (findSummary r.1 "kb").map SummaryRow.summaryId)) =
      some ([textEncodingTopic], some "kb", some "kb") ∧
    racePre ≠ "kb" := by
  constructor
  · decide
  · decide

/-- C2 (amended): when the newly computed preprocessed identifier addresses
(through its self-binding) a summary in COMPLETED status, the handler
repoints the raw binding to it, produces no message, and increments that
summary\x27s request count; when nothing sits at the new identifier yet — no
binding, no summary, and no stored source carrying the preprocessed text\x27s
hash (the no-collision precondition the original claim lacks, see
`claim_C2_counterexample`) — the in-flight summary and its source are
migrated to the new identifier, the canonical self-binding is inserted, and
exactly one message is produced to the text-encoding topic, alongside the
request-count increment. -/
theorem claim_C2 :
    (∀ (db : DB) (key textPre model : String) (params : Params) (now : Nat)
      (idPre : String) (bp bk : BindingRow) (sp so : SummaryRow)
      (srcp : SourceRow),
      idPre = get_unique_key textPre model params → db.WF →
      findBinding db idPre = some bp → bp.idPre = idPre →
      findSummary db idPre = some sp → sp.status = SummaryStatus.completed →
      findSource db sp.sourceId = some srcp →
      findBinding db key = some bk → key ≠ idPre →
      findSummary db key = some so → so.sourceId ≠ sp.sourceId →
      ∃ db', handle_preprocessing db key textPre model params now =
          some (db', []) ∧
        findBinding db' key =
          some { bk with idPre := idPre, lastAccessed := now } ∧
        findSummary db' idPre =
          some { sp with requestCount := sp.requestCount + 1 }) ∧
    (∀ (db : DB) (key textPre model : String) (params : Params) (now : Nat)
      (idPre : String) (bk : BindingRow) (so : SummaryRow) (src : SourceRow),
      idPre = get_unique_key textPre model params → db.WF →
      findBinding db idPre = none → findSummary db idPre = none →
      findSource db (dao_get_unique_key textPre) = none →
      findBinding db key = some bk → bk.idPre = key →
      findSummary db key = some so → findSource db so.sourceId = some src →
      src.sourceId = dao_get_unique_key src.content →
      ∃ db', handle_preprocessing db key textPre model params now =
          some (db', [⟨textEncodingTopic, key, textPre, model, params⟩]) ∧
        findSummary db' idPre = some { so with
          summaryId := idPre, sourceId := dao_get_unique_key textPre,
          requestCount := so.requestCount + 1 } ∧
        findBinding db' key =
          some { bk with idPre := idPre, lastAccessed := now } ∧
        findBinding db' idPre = some ⟨idPre, idPre, bk.cache, now⟩ ∧
        findSource db' (dao_get_unique_key textPre) =
          some ⟨dao_get_unique_key textPre, textPre, textPre.length⟩) :=
  ⟨fun db key textPre model params now idPre bp bk sp so srcp hid hWF hbp
      hbpSelf hsp hspc hsrcp hbk hkne hso hneq =>
    c2_completed_branch db key textPre model params now idPre bp bk sp so srcp
      hid hWF hbp hbpSelf hsp hspc hsrcp hbk hkne hso hneq,
   fun db key textPre model params now idPre bk so src hid hWF hnb hnosum
      hnosrc hbk hbkSelf hso hsrc hhash =>
    c2_migrate_branch db key textPre model params now idPre bk so src hid hWF
      hnb hnosum hnosrc hbk hbkSelf hso hsrc hhash⟩

set_option maxRecDepth 100000 in
/-- Witness for C2: both branches applied at concrete stores. -/
theorem claim_C2_witness :
    (∃ db', handle_preprocessing dbA "kb" "p" "m" [] 5 = some (db', []) ∧
      findBinding db' "kb" =
        some { bkA with idPre := racePre, lastAccessed := 5 } ∧
      findSummary db' racePre =
        some { spA with requestCount := spA.requestCount + 1 }) ∧
    (∃ db', handle_preprocessing dbB "kb" "p" "m" [] 5 =
        some (db', [⟨textEncodingTopic, "kb", "p", "m", []⟩]) ∧
      findSummary db' racePre = some { soB with
        summaryId := racePre, sourceId := dao_get_unique_key "p",
        requestCount := soB.requestCount + 1 } ∧
      findBinding db' "kb" =
        some { bkB with idPre := racePre, lastAccessed := 5 } ∧
      findBinding db' racePre = some ⟨racePre, racePre, bkB.cache, 5⟩ ∧
      findSource db' (dao_get_unique_key "p") =
        some ⟨dao_get_unique_key "p", "p", "p".length⟩) :=
  ⟨claim_C2.1 dbA "kb" "p" "m" [] 5 racePre bpA bkA spA soA srcpA rfl
      (by decide) (by decide) rfl (by decide) rfl (by decide) (by decide)
      (by decide) (by decide) (by decide),
   claim_C2.2 dbB "kb" "p" "m" [] 5 racePre bkB soB srcB rfl (by decide)
      (by decide) (by decide) (by decide) (by decide) rfl (by decide)
      (by decide) rfl⟩

/-! ### C5: the min/max cross-field tie-break of `validate_params` -/

theorem lookup_none_of_key_absent {β : Type} (l : List (String × β)) (k : String)
    (h : k ∉ l.map Prod.fst) : l.lookup k = none := by
  induction l with
  | nil => rfl
  | cons kv t ih =>
    obtain ⟨k1, v1⟩ := kv
    have h1 : k ≠ k1 := fun hc => h (by simp [hc])
    have h2 : k ∉ t.map Prod.fst := fun hc => h (by simp [hc])
    simp only [List.lookup, beq_false_of_ne h1, ih h2]

theorem lookup_filter_nodup {β : Type} (p : String × β → Bool)
    (l : List (String × β)) (k : String) (hnd : (l.map Prod.fst).Nodup)
    (v : β) (hv : l.lookup k = some v) (hp : p (k, v) = false) :
    (l.filter p).lookup k = none := by
  induction l with
  | nil => cases hv
  | cons kv t ih =>
    obtain ⟨k1, v1⟩ := kv
    rw [List.map_cons, List.nodup_cons] at hnd
    by_cases hk : k = k1
    · subst hk
      have hv1 : v1 = v := by
        simp only [List.lookup, beq_self_eq_true] at hv
        exact Option.some.inj hv
      subst hv1
      simp only [List.filter, hp, Bool.false_eq_true, if_false]
      exact lookup_filter_none p t k (lookup_none_of_key_absent t k hnd.1)
    · have htv : t.lookup k = some v := by
        simpa only [List.lookup, beq_false_of_ne hk] using hv
      by_cases hq : p (k1, v1)
      · simp only [List.filter, hq, if_true, List.lookup, beq_false_of_ne hk]
        exact ih hnd.2 htv
      · have hq2 : p (k1, v1) = false := by simpa using hq
        simp only [List.filter, hq2, Bool.false_eq_true, if_false]
        exact ih hnd.2 htv

theorem lookup_phase1Wmsgs_absent (ps : Params) (k : String)
    (h : ps.lookup k = none) : (phase1Wmsgs ps).lookup k = none := by
  induction ps with
  | nil => rfl
  | cons kv t ih =>
    obtain ⟨k1, v1⟩ := kv
    by_cases hk : k = k1
    · subst hk
      simp only [List.lookup, beq_self_eq_true] at h
      exact Option.noConfusion h
    · have ht : t.lookup k = none := by
        simpa only [List.lookup, beq_false_of_ne hk] using h
      simp only [phase1Wmsgs]
      rw [List.filterMap_cons]
      by_cases hcase : (entryWmsgs k1 v1).isEmpty
      · simp only [hcase, if_true]
        exact ih ht
      · have hcase2 : (entryWmsgs k1 v1).isEmpty = false := by simpa using hcase
        simp only [hcase2, Bool.false_eq_true, if_false, List.lookup,
          beq_false_of_ne hk]
        exact ih ht

theorem lookup_phase1Wmsgs_none (ps : Params) (k : String)
    (hnd : (ps.map Prod.fst).Nodup) (v : PyVal) (hv : ps.lookup k = some v)
    (hw : entryWmsgs k v = []) : (phase1Wmsgs ps).lookup k = none := by
  induction ps with
  | nil => cases hv
  | cons kv t ih =>
    obtain ⟨k1, v1⟩ := kv
    rw [List.map_cons, List.nodup_cons] at hnd
    simp only [phase1Wmsgs]
    rw [List.filterMap_cons]
    by_cases hk : k = k1
    · subst hk
      have hv1 : v1 = v := by
        simp only [List.lookup, beq_self_eq_true] at hv
        exact Option.some.inj hv
      subst hv1
      simp only [hw, List.isEmpty_nil, if_true]
      exact lookup_phase1Wmsgs_absent t k (lookup_none_of_key_absent t k hnd.1)
    · have htv : t.lookup k = some v := by
        simpa only [List.lookup, beq_false_of_ne hk] using hv
      by_cases hcase : (entryWmsgs k1 v1).isEmpty
      · simp only [hcase, if_true]
        exact ih hnd.2 htv
      · have hcase2 : (entryWmsgs k1 v1).isEmpty = false := by simpa using hcase
        simp only [hcase2, Bool.false_eq_true, if_false, List.lookup,
          beq_false_of_ne hk]
        exact ih hnd.2 htv

theorem lookup_foldl_fill_present (ks : List String) (acc : Params) (k : String)
    (v : PyVal) (hv : acc.lookup k = some v) :
    (ks.foldl (fun acc k => if (acc.lookup k).isSome then acc
      else acc ++ [(k, defaultParamVal k)]) acc).lookup k = some v := by
  induction ks generalizing acc with
  | nil => exact hv
  | cons k1 t ih =>
    rw [List.foldl_cons]
    by_cases h : (acc.lookup k1).isSome
    · rw [if_pos h]
      exact ih acc hv
    · rw [if_neg h]
      apply ih
      rw [lookup_append_or, hv]
      rfl

theorem lookup_foldl_fill_absent (ks : List String) (acc : Params) (k : String)
    (hk : k ∈ ks) (hv : acc.lookup k = none) :
    (ks.foldl (fun acc k => if (acc.lookup k).isSome then acc
      else acc ++ [(k, defaultParamVal k)]) acc).lookup k =
      some (defaultParamVal k) := by
  induction ks generalizing acc with
  | nil => cases hk
  | cons k1 t ih =>
    rw [List.foldl_cons]
    by_cases he : k = k1
    · subst he
      rw [if_neg (show ¬((acc.lookup k).isSome = true) by rw [hv]; simp)]
      apply lookup_foldl_fill_present
      rw [lookup_append_or, hv]
      show ([(k, defaultParamVal k)] : Params).lookup k = some (defaultParamVal k)
      simp [List.lookup]
    · have hkt : k ∈ t := by
        cases hk with
        | head => exact absurd rfl he
        | tail _ hx => exact hx
      by_cases h : (acc.lookup k1).isSome
      · rw [if_pos h]
        exact ih acc hkt hv
      · rw [if_neg h]
        refine ih _ hkt ?_
        rw [lookup_append_or, hv]
        show ([(k1, defaultParamVal k1)] : Params).lookup k = none
        simp [List.lookup, beq_false_of_ne he]

/-- Min-only tie-break: a valid supplied `relative_min_length` conflicting
with the default `relative_max_length` is alone flagged, warned with the
against-default message, and defaulted; `relative_max_length` gets no
warning, is not flagged, and comes out as its default. -/
theorem c5_min_only (ps : Params) (a : ℚ)
    (hnd : (ps.map Prod.fst).Nodup)
    (hmin : ps.lookup minName = some (.pFloat a))
    (hmaxAbsent : ps.lookup maxName = none)
    (ha1 : (0.1 : ℚ) ≤ a) (ha2 : a ≤ (1.0 : ℚ))
    (hconf : (0.4 : ℚ) ≤ a) :
    (validate_params ps).2.1.lookup minName = some (PyVal.pFloat a) ∧
    (validate_params ps).2.1.lookup maxName = none ∧
    (validate_params ps).2.2.lookup minName = some [Wmsg.minLengthDefault] ∧
    (validate_params ps).2.2.lookup maxName = none ∧
    (validate_params ps).1.lookup minName = some (defaultParamVal minName) ∧
    (validate_params ps).1.lookup maxName = some (defaultParamVal maxName) := by
  have hne : minName ≠ maxName := by decide
  have hne2 : maxName ≠ minName := by decide
  have hvb : validateBounds a (some 0.1) (some 1.0) = true := by
    show (decide ((0.1 : ℚ) ≤ a) && decide (a ≤ (1.0 : ℚ))) = true
    rw [decide_eq_true ha1, decide_eq_true ha2]
    rfl
  have hinvMin : entryInvalid minName (.pFloat a) = false := by
    show (!((if validateBounds a (some 0.1) (some 1.0) then ([] : List Wmsg)
      else [Wmsg.bounded]).isEmpty)) = false
    rw [hvb]
    rfl
  have hwsMin : entryWmsgs minName (.pFloat a) = [] := by
    show (if validateBounds a (some 0.1) (some 1.0) then ([] : List Wmsg)
      else [Wmsg.bounded]) = []
    rw [hvb]
    rfl
  have hge2 : pyGE (.pFloat a) (defaultParamVal maxName) = true := by
    show decide ((0.4 : ℚ) ≤ a) = true
    exact decide_eq_true hconf
  have hinv0min : (phase1Invalid ps).lookup minName = none :=
    lookup_filter_nodup _ ps minName hnd _ hmin hinvMin
  have hinv0max : (phase1Invalid ps).lookup maxName = none :=
    lookup_filter_none _ ps maxName hmaxAbsent
  have hwm0min : (phase1Wmsgs ps).lookup minName = none :=
    lookup_phase1Wmsgs_none ps minName hnd _ hmin hwsMin
  have hwm0max : (phase1Wmsgs ps).lookup maxName = none :=
    lookup_phase1Wmsgs_absent ps maxName hmaxAbsent
  have hVP : validate_params ps =
      (supportedParams.foldl
        (fun acc k => if (acc.lookup k).isSome then acc
          else acc ++ [(k, defaultParamVal k)])
        (ps.filter fun kv =>
          ((setVal (phase1Invalid ps) minName (PyVal.pFloat a)).lookup
            kv.1).isNone),
       setVal (phase1Invalid ps) minName (PyVal.pFloat a),
       phase1Wmsgs ps ++ [(minName, [Wmsg.minLengthDefault])]) := by
    simp only [validate_params, hinv0min, hinv0max, hmin, hmaxAbsent,
      Option.isSome_none, Option.isSome_some, Option.getD_some,
      Option.getD_none, Bool.false_eq_true, if_false, Bool.true_and,
      Bool.false_and, Bool.and_false, Bool.and_self, Bool.not_false,
      hge2, hwm0min, eq_self_iff_true, if_true]
  have hinv1min : (setVal (phase1Invalid ps) minName (PyVal.pFloat a)).lookup
      minName = some (PyVal.pFloat a) := lookup_setVal_self _ _ _
  have hinv1max : (setVal (phase1Invalid ps) minName (PyVal.pFloat a)).lookup
      maxName = none := by
    rw [lookup_setVal_ne _ _ _ _ hne2]
    exact hinv0max
  refine ⟨?_, ?_, ?_, ?_, ?_, ?_⟩
  · simp only [hVP]
    exact hinv1min
  · simp only [hVP]
    exact hinv1max
  · simp only [hVP]
    rw [lookup_append_or, hwm0min]
    rfl
  · simp only [hVP]
    rw [lookup_append_or, hwm0max]
    rfl
  · simp only [hVP]
    apply lookup_foldl_fill_absent _ _ _ (by decide)
    apply lookup_filter_of_key_dropped
    intro v
    show ((setVal (phase1Invalid ps) minName (PyVal.pFloat a)).lookup
      minName).isNone = false
    rw [hinv1min]
    rfl
  · simp only [hVP]
    apply lookup_foldl_fill_absent _ _ _ (by decide)
    exact lookup_filter_none _ ps maxName hmaxAbsent

/-- Both-supplied tie-break: when both relative lengths are supplied as
valid floats and min is not below max, both keys are flagged invalid, both
receive their cross-field warning, and both come out defaulted. -/
theorem c5_both (ps : Params) (a b : ℚ)
    (hnd : (ps.map Prod.fst).Nodup)
    (hmin : ps.lookup minName = some (.pFloat a))
    (hmax : ps.lookup maxName = some (.pFloat b))
    (ha1 : (0.1 : ℚ) ≤ a) (ha2 : a ≤ (1.0 : ℚ))
    (hb1 : (0.1 : ℚ) ≤ b) (hb2 : b ≤ (1.0 : ℚ))
    (hviol : b ≤ a) :
    (validate_params ps).2.1.lookup minName = some (PyVal.pFloat a) ∧
    (validate_params ps).2.1.lookup maxName = some (PyVal.pFloat b) ∧
    (validate_params ps).2.2.lookup minName = some [Wmsg.minLength] ∧
    (validate_params ps).2.2.lookup maxName = some [Wmsg.maxLength] ∧
    (validate_params ps).1.lookup minName = some (defaultParamVal minName) ∧
    (validate_params ps).1.lookup maxName = some (defaultParamVal maxName) := by
  have hne : minName ≠ maxName := by decide
  have hne2 : maxName ≠ minName := by decide
  have hvbA : validateBounds a (some 0.1) (some 1.0) = true := by
    show (decide ((0.1 : ℚ) ≤ a) && decide (a ≤ (1.0 : ℚ))) = true
    rw [decide_eq_true ha1, decide_eq_true ha2]
    rfl
  have hvbB : validateBounds b (some 0.1) (some 1.0) = true := by
    show (decide ((0.1 : ℚ) ≤ b) && decide (b ≤ (1.0 : ℚ))) = true
    rw [decide_eq_true hb1, decide_eq_true hb2]
    rfl
  have hinvMin : entryInvalid minName (.pFloat a) = false := by
    show (!((if validateBounds a (some 0.1) (some 1.0) then ([] : List Wmsg)
      else [Wmsg.bounded]).isEmpty)) = false
    rw [hvbA]
    rfl
  have hinvMax : entryInvalid maxName (.pFloat b) = false := by
    show (!((if validateBounds b (some 0.1) (some 1.0) then ([] : List Wmsg)
      else [Wmsg.bounded]).isEmpty)) = false
    rw [hvbB]
    rfl
  have hwsMin : entryWmsgs minName (.pFloat a) = [] := by
    show (if validateBounds a (some 0.1) (some 1.0) then ([] : List Wmsg)
      else [Wmsg.bounded]) = []
    rw [hvbA]
    rfl
  have hwsMax : entryWmsgs maxName (.pFloat b) = [] := by
    show (if validateBounds b (some 0.1) (some 1.0) then ([] : List Wmsg)
      else [Wmsg.bounded]) = []
    rw [hvbB]
    rfl
  have hge : pyGE (.pFloat a) (.pFloat b) = true := by
    show decide (b ≤ a) = true
    exact decide_eq_true hviol
  have hinv0min : (phase1Invalid ps).lookup minName = none :=
    lookup_filter_nodup _ ps minName hnd _ hmin hinvMin
  have hinv0max : (phase1Invalid ps).lookup maxName = none :=
    lookup_filter_nodup _ ps maxName hnd _ hmax hinvMax
  have hwm0min : (phase1Wmsgs ps).lookup minName = none :=
    lookup_phase1Wmsgs_none ps minName hnd _ hmin hwsMin
  have hwm0max : (phase1Wmsgs ps).lookup maxName = none :=
    lookup_phase1Wmsgs_none ps maxName hnd _ hmax hwsMax
  have hwmAmax : (phase1Wmsgs ps ++ [(minName, [Wmsg.minLength])]).lookup
      maxName = none := by
    rw [lookup_append_or, hwm0max]
    rfl
  have hVP : validate_params ps =
      (supportedParams.foldl
        (fun acc k => if (acc.lookup k).isSome then acc
          else acc ++ [(k, defaultParamVal k)])
        (ps.filter fun kv =>
          ((setVal (setVal (phase1Invalid ps) minName (PyVal.pFloat a))
            maxName (PyVal.pFloat b)).lookup kv.1).isNone),
       setVal (setVal (phase1Invalid ps) minName (PyVal.pFloat a))
         maxName (PyVal.pFloat b),
       (phase1Wmsgs ps ++ [(minName, [Wmsg.minLength])]) ++
         [(maxName, [Wmsg.maxLength])]) := by
    simp only [validate_params, hinv0min, hinv0max, hmin, hmax,
      Option.isSome_none, Option.isSome_some, Option.getD_some,
      Option.getD_none, Bool.false_eq_true, if_false, Bool.true_and,
      Bool.false_and, Bool.and_false, Bool.and_self, Bool.not_false,
      hge, hwm0min, hwmAmax, eq_self_iff_true, if_true]
  have hinv1min : (setVal (setVal (phase1Invalid ps) minName (PyVal.pFloat a))
      maxName (PyVal.pFloat b)).lookup minName = some (PyVal.pFloat a) := by
    rw [lookup_setVal_ne _ _ _ _ hne]
    exact lookup_setVal_self _ _ _
  have hinv1max : (setVal (setVal (phase1Invalid ps) minName (PyVal.pFloat a))
      maxName (PyVal.pFloat b)).lookup maxName = some (PyVal.pFloat b) :=
    lookup_setVal_self _ _ _
  refine ⟨?_, ?_, ?_, ?_, ?_, ?_⟩
  · simp only [hVP]
    exact hinv1min
  · simp only [hVP]
    exact hinv1max
  · simp only [hVP]
    rw [lookup_append_or]
    have h1 : (phase1Wmsgs ps ++ [(minName, [Wmsg.minLength])]).lookup minName =
        some [Wmsg.minLength] := by
      rw [lookup_append_or, hwm0min]
      rfl
    rw [h1]
    rfl
  · simp only [hVP]
    rw [lookup_append_or, hwmAmax]
    rfl
  · simp only [hVP]
    apply lookup_foldl_fill_absent _ _ _ (by decide)
    apply lookup_filter_of_key_dropped
    intro v
    show ((setVal (setVal (phase1Invalid ps) minName (PyVal.pFloat a))
      maxName (PyVal.pFloat b)).lookup minName).isNone = false
    rw [hinv1min]
    rfl
  · simp only [hVP]
    apply lookup_foldl_fill_absent _ _ _ (by decide)
    apply lookup_filter_of_key_dropped
    intro v
    show ((setVal (setVal (phase1Invalid ps) minName (PyVal.pFloat a))
      maxName (PyVal.pFloat b)).lookup maxName).isNone = false
    rw [hinv1max]
    rfl

/-- Max-only tie-break: a valid supplied `relative_max_length` conflicting
with the default `relative_min_length` is alone flagged, warned with the
against-default message, and defaulted; `relative_min_length` gets no
warning, is not flagged, and comes out as its default. -/
theorem c5_max_only (ps : Params) (b : ℚ)
    (hnd : (ps.map Prod.fst).Nodup)
    (hminAbsent : ps.lookup minName = none)
    (hmax : ps.lookup maxName = some (.pFloat b))
    (hb1 : (0.1 : ℚ) ≤ b) (hb2 : b ≤ (1.0 : ℚ))
    (hconf : b ≤ (0.1 : ℚ)) :
    (validate_params ps).2.1.lookup minName = none ∧
    (validate_params ps).2.1.lookup maxName = some (PyVal.pFloat b) ∧
    (validate_params ps).2.2.lookup minName = none ∧
    (validate_params ps).2.2.lookup maxName = some [Wmsg.maxLengthDefault] ∧
    (validate_params ps).1.lookup minName = some (defaultParamVal minName) ∧
    (validate_params ps).1.lookup maxName = some (defaultParamVal maxName) := by
  have hne : minName ≠ maxName := by decide
  have hne2 : maxName ≠ minName := by decide
  have hvbB : validateBounds b (some 0.1) (some 1.0) = true := by
    show (decide ((0.1 : ℚ) ≤ b) && decide (b ≤ (1.0 : ℚ))) = true
    rw [decide_eq_true hb1, decide_eq_true hb2]
    rfl
  have hinvMax : entryInvalid maxName (.pFloat b) = false := by
    show (!((if validateBounds b (some 0.1) (some 1.0) then ([] : List Wmsg)
      else [Wmsg.bounded]).isEmpty)) = false
    rw [hvbB]
    rfl
  have hwsMax : entryWmsgs maxName (.pFloat b) = [] := by
    show (if validateBounds b (some 0.1) (some 1.0) then ([] : List Wmsg)
      else [Wmsg.bounded]) = []
    rw [hvbB]
    rfl
  have hle : pyLE (.pFloat b) (defaultParamVal minName) = true := by
    show decide (b ≤ (0.1 : ℚ)) = true
    exact decide_eq_true hconf
  have hinv0min : (phase1Invalid ps).lookup minName = none :=
    lookup_filter_none _ ps minName hminAbsent
  have hinv0max : (phase1Invalid ps).lookup maxName = none :=
    lookup_filter_nodup _ ps maxName hnd _ hmax hinvMax
  have hwm0min : (phase1Wmsgs ps).lookup minName = none :=
    lookup_phase1Wmsgs_absent ps minName hminAbsent
  have hwm0max : (phase1Wmsgs ps).lookup maxName = none :=
    lookup_phase1Wmsgs_none ps maxName hnd _ hmax hwsMax
  have hVP : validate_params ps =
      (supportedParams.foldl
        (fun acc k => if (acc.lookup k).isSome then acc
          else acc ++ [(k, defaultParamVal k)])
        (ps.filter fun kv =>
          ((setVal (phase1Invalid ps) maxName (PyVal.pFloat b)).lookup
            kv.1).isNone),
       setVal (phase1Invalid ps) maxName (PyVal.pFloat b),
       phase1Wmsgs ps ++ [(maxName, [Wmsg.maxLengthDefault])]) := by
    simp only [validate_params, hinv0min, hinv0max, hminAbsent, hmax,
      Option.isSome_none, Option.isSome_some, Option.getD_some,
      Option.getD_none, Bool.false_eq_true, if_false, Bool.true_and,
      Bool.false_and, Bool.and_false, Bool.and_self, Bool.not_false,
      hle, hwm0max, eq_self_iff_true, if_true]
  have hinv1max : (setVal (phase1Invalid ps) maxName (PyVal.pFloat b)).lookup
      maxName = some (PyVal.pFloat b) := lookup_setVal_self _ _ _
  have hinv1min : (setVal (phase1Invalid ps) maxName (PyVal.pFloat b)).lookup
      minName = none := by
    rw [lookup_setVal_ne _ _ _ _ hne]
    exact hinv0min
  refine ⟨?_, ?_, ?_, ?_, ?_, ?_⟩
  · simp only [hVP]
    exact hinv1min
  · simp only [hVP]
    exact hinv1max
  · simp only [hVP]
    rw [lookup_append_or, hwm0min]
    rfl
  · simp only [hVP]
    rw [lookup_append_or, hwm0max]
    rfl
  · simp only [hVP]
    apply lookup_foldl_fill_absent _ _ _ (by decide)
    exact lookup_filter_none _ ps minName hminAbsent
  · simp only [hVP]
    apply lookup_foldl_fill_absent _ _ _ (by decide)
    apply lookup_filter_of_key_dropped
    intro v
    show ((setVal (phase1Invalid ps) maxName (PyVal.pFloat b)).lookup
      maxName).isNone = false
    rw [hinv1max]
    rfl

/-- C5: the cross-field tie-break of `validate_params` on
`relative_min_length` and `relative_max_length`, in the code\x27s `if`/`elif`
order. Both supplied (as valid floats) and min not below max: both keys are
flagged invalid, both are warned, both come out defaulted. Only min supplied
and conflicting with the default max: only min is flagged, warned and
defaulted, and max gets no warning. Only max supplied and conflicting with
the default min: only max is flagged, warned and defaulted, and min gets no
warning. -/
theorem claim_C5 :
    (∀ (ps : Params) (a b : ℚ), (ps.map Prod.fst).Nodup →
      ps.lookup minName = some (.pFloat a) →
      ps.lookup maxName = some (.pFloat b) →
      (0.1 : ℚ) ≤ a → a ≤ (1.0 : ℚ) → (0.1 : ℚ) ≤ b → b ≤ (1.0 : ℚ) →
      b ≤ a →
      (validate_params ps).2.1.lookup minName = some (PyVal.pFloat a) ∧
      (validate_params ps).2.1.lookup maxName = some (PyVal.pFloat b) ∧
      (validate_params ps).2.2.lookup minName = some [Wmsg.minLength] ∧
      (validate_params ps).2.2.lookup maxName = some [Wmsg.maxLength] ∧
      (validate_params ps).1.lookup minName = some (defaultParamVal minName) ∧
      (validate_params ps).1.lookup maxName = some (defaultParamVal maxName)) ∧
    (∀ (ps : Params) (a : ℚ), (ps.map Prod.fst).Nodup →
      ps.lookup minName = some (.pFloat a) → ps.lookup maxName = none →
      (0.1 : ℚ) ≤ a → a ≤ (1.0 : ℚ) → (0.4 : ℚ) ≤ a →
      (validate_params ps).2.1.lookup minName = some (PyVal.pFloat a) ∧
      (validate_params ps).2.1.lookup maxName = none ∧
      (validate_params ps).2.2.lookup minName = some [Wmsg.minLengthDefault] ∧
      (validate_params ps).2.2.lookup maxName = none ∧
      (validate_params ps).1.lookup minName = some (defaultParamVal minName) ∧
      (validate_params ps).1.lookup maxName = some (defaultParamVal maxName)) ∧
    (∀ (ps : Params) (b : ℚ), (ps.map Prod.fst).Nodup →
      ps.lookup minName = none → ps.lookup maxName = some (.pFloat b) →
      (0.1 : ℚ) ≤ b → b ≤ (1.0 : ℚ) → b ≤ (0.1 : ℚ) →
      (validate_params ps).2.1.lookup minName = none ∧
      (validate_params ps).2.1.lookup maxName = some (PyVal.pFloat b) ∧
      (validate_params ps).2.2.lookup minName = none ∧
      (validate_params ps).2.2.lookup maxName = some [Wmsg.maxLengthDefault] ∧
      (validate_params ps).1.lookup minName = some (defaultParamVal minName) ∧
      (validate_params ps).1.lookup maxName = some (defaultParamVal maxName)) :=
  ⟨fun ps a b hnd hmin hmax ha1 ha2 hb1 hb2 hviol =>
    c5_both ps a b hnd hmin hmax ha1 ha2 hb1 hb2 hviol,
   fun ps a hnd hmin hmaxAbsent ha1 ha2 hconf =>
    c5_min_only ps a hnd hmin hmaxAbsent ha1 ha2 hconf,
   fun ps b hnd hminAbsent hmax hb1 hb2 hconf =>
    c5_max_only ps b hnd hminAbsent hmax hb1 hb2 hconf⟩

/-- Witness for C5: the spec\x27s concrete examples — min 0.5 with max 0.2
(both supplied, violating), min 0.7 alone (exceeding the default max 0.4),
and max 0.1 alone (not above the default min 0.1). -/
theorem claim_C5_witness :
    ((validate_params [(minName, PyVal.pFloat (1/2)),
        (maxName, PyVal.pFloat (1/5))]).2.2.lookup minName =
      some [Wmsg.minLength] ∧
     (validate_params [(minName, PyVal.pFloat (1/2)),
        (maxName, PyVal.pFloat (1/5))]).2.2.lookup maxName =
      some [Wmsg.maxLength] ∧
     (validate_params [(minName, PyVal.pFloat (1/2)),
        (maxName, PyVal.pFloat (1/5))]).1.lookup minName =
      some (defaultParamVal minName)) ∧
    ((validate_params [(minName, PyVal.pFloat (7/10))]).2.2.lookup minName =
      some [Wmsg.minLengthDefault] ∧
     (validate_params [(minName, PyVal.pFloat (7/10))]).2.2.lookup maxName =
      none) ∧
    ((validate_params [(maxName, PyVal.pFloat (1/10))]).2.2.lookup maxName =
      some [Wmsg.maxLengthDefault] ∧
     (validate_params [(maxName, PyVal.pFloat (1/10))]).2.2.lookup minName =
      none) := by
  have h1 := claim_C5.1 [(minName, PyVal.pFloat (1/2)),
    (maxName, PyVal.pFloat (1/5))] (1/2) (1/5) (by decide) rfl rfl
    (by norm_num) (by norm_num) (by norm_num) (by norm_num) (by norm_num)
  have h2 := claim_C5.2.1 [(minName, PyVal.pFloat (7/10))] (7/10) (by decide)
    rfl rfl (by norm_num) (by norm_num) (by norm_num)
  have h3 := claim_C5.2.2 [(maxName, PyVal.pFloat (1/10))] (1/10) (by decide)
    rfl rfl (by norm_num) (by norm_num) (by norm_num)
  exact ⟨⟨h1.2.2.1, h1.2.2.2.1, h1.2.2.2.2.1⟩, ⟨h2.2.2.1, h2.2.2.2.1⟩,
    ⟨h3.2.2.2.1, h3.2.2.1⟩⟩

/-- Sanity of the executable SHA-256 against the reference test vector for
"abc". -/
theorem sha256hex_abc :
    Sha256.sha256hex "abc" =
      "ba7816bf8f01cfea414140de5dae2223b00361a396177a9cb410ff61f20015ad" := by
  decide

set_option maxRecDepth 4000 in
/-- Sanity of the executable SHA-256 against the reference two-block test
vector. -/
theorem sha256hex_two_blocks :
    Sha256.sha256hex "abcdbcdecdefdefgefghfghighijhijkijkljklmklmnlmnomnopnopq" =
      "248d6a61d20638b8e5c026930c3e6039a33ce45964ff2167f6ecedd419db06c1" := by
  decide

end Jizt
